import Mathlib

/-!
# ddterm GNOME Shell extension

A shallow embedding of `extension.js` (window tracking, height persistence, action
broker) and of the settle wait `wait_window_settle` of `extension_tests.js`.

Modelling conventions.

* The module-level variables of `extension.js` (`current_window`, `created_handler_id`,
  `bus_watch_id`, `dbus_action_group`) are the first four fields of `State`.  The value
  stored under the settings key `window-height`, the per-window signal connections made
  by the extension and the ordered trace of calls into the shell (`Effect`) are the
  remaining, collaborator-side fields.
* Everything the extension only reads (window attributes, work areas, session mode) is in
  `Env`.  A callback runs against one `Env`; the compositor changes it between callbacks.
* A JavaScript number (`JSNumber`) is `Infinity`, `-Infinity`, `NaN` or a finite value
  given by a rational that stands for the binary64 number nearest to it.  The quotient
  of two integers (`jsDiv`) is kept exact, which identifies the correctly rounded double;
  the product (`jsMul`) is rounded to binary64 as IEEE-754 prescribes.
* Signals are delivered by the compositor between callbacks (`emit_signal`); a call such
  as `move_resize_frame` is recorded in the trace and does not re-enter the extension.
-/

namespace DDTerm

/-! ## JavaScript values -/

/-- The JavaScript values that `is_dropdown_terminal_window` can return. -/
inductive JSValue
  | null
  | bool (b : Bool)
  | str (s : String)
  deriving DecidableEq

/-- JavaScript truthiness: `null`, `false` and the empty string are falsy. -/
def JSValue.truthy : JSValue → Bool
  | .null => false
  | .bool b => b
  | .str s => s != ""

/-- A JavaScript number: a finite value, an infinity or NaN.  `finite q` stands for the
binary64 number nearest to `q`. -/
inductive JSNumber
  | finite (q : ℚ)
  | posInf
  | negInf
  | nan
  deriving DecidableEq

/-- The quotient `a / b` of two integer-valued JavaScript numbers. -/
def jsDiv (a b : Int) : JSNumber :=
  if b = 0 then
    if a = 0 then .nan else if 0 < a then .posInf else .negInf
  else .finite ((a : ℚ) / (b : ℚ))

/-- Floor of the binary logarithm, by halving; `fuel` bounds the number of halvings. -/
def log2_fuel : Nat → Nat → Nat
  | 0, _ => 0
  | fuel + 1, n => if n < 2 then 0 else log2_fuel fuel (n / 2) + 1

/-- Floor of the binary logarithm of a positive natural number. -/
def floor_log2 (n : Nat) : Nat := log2_fuel n n

/-- Numerator and denominator of `n / d` divided by `2 ^ p`. -/
def scale_by_pow2 (n d : Nat) (p : Int) : Nat × Nat :=
  if 0 ≤ p then (n, d * 2 ^ p.toNat) else (n * 2 ^ (-p).toNat, d)

/-- The integer nearest to `n / d`, ties to the even one. -/
def round_half_even (n d : Nat) : Nat :=
  if 2 * (n % d) < d then n / d
  else if d < 2 * (n % d) then n / d + 1
  else if (n / d) % 2 = 0 then n / d else n / d + 1

/-- IEEE-754 binary64 rounding of the positive ratio `n / d`, as a significand `m` and
an exponent `p` with value `m * 2 ^ p`: 53 significant bits, round to nearest, ties to
even, subnormal below `2 ^ (-1022)`. -/
def binary64_parts (n d : Nat) : Nat × Int :=
  let e0 : Int := (floor_log2 n : Int) - (floor_log2 d : Int)
  let e : Int := if (scale_by_pow2 n d e0).1 < (scale_by_pow2 n d e0).2 then e0 - 1 else e0
  let p : Int := max e (-1022) - 52
  (round_half_even (scale_by_pow2 n d p).1 (scale_by_pow2 n d p).2, p)

/-- The binary64 number nearest to the rational `q`; magnitudes that round to
`2 ^ 1024` or more overflow to an infinity.  Zero carries no sign. -/
def roundToDouble (q : ℚ) : JSNumber :=
  if q = 0 then .finite 0
  else
    let mp := binary64_parts q.num.natAbs q.den
    let magnitude : ℚ := (mp.1 : ℚ) * (2 : ℚ) ^ mp.2
    if (2 : ℚ) ^ (1024 : ℤ) ≤ magnitude then (if 0 < q then .posInf else .negInf)
    else if 0 < q then .finite magnitude else .finite (-magnitude)

/-- The binary64 value a number stands for: `finite q` stands for the double nearest to
`q`. -/
def JSNumber.toDouble : JSNumber → JSNumber
  | .finite q => roundToDouble q
  | other => other

/-- The product `a * r` of an integer-valued JavaScript number and a JavaScript number,
as IEEE-754 computes it: the exact product of the two doubles, rounded to binary64. -/
def jsMul (a : Int) (r : JSNumber) : JSNumber :=
  match r.toDouble with
  | .finite d => roundToDouble ((a : ℚ) * d)
  | .posInf => if a = 0 then .nan else if 0 < a then .posInf else .negInf
  | .negInf => if a = 0 then .nan else if 0 < a then .negInf else .posInf
  | .nan => .nan

/-- The method `String.prototype.startsWith`. -/
def startsWith (s pre : String) : Bool := pre.data.isPrefixOf s.data

/-! ## Constants of `extension.js` -/

def APP_ID : String := "com.github.amezin.ddterm"

def APP_DBUS_PATH : String := "/com/github/amezin/ddterm"

def WINDOW_PATH_PREFIX : String := APP_DBUS_PATH ++ "/window/"

/-! ## Data model -/

/-- Identity of a compositor window (a `Meta.Window` object). -/
abbrev WinId := Nat

/-- A `Meta.Rectangle`: integer origin and size. -/
structure Rectangle where
  x : Int
  y : Int
  width : Int
  height : Int
  deriving DecidableEq

/-- What the extension reads from a `Meta.Window`. -/
structure Window where
  /-- Property `gtk_application_id`: a string or `null`. -/
  gtk_application_id : Option String
  /-- Property `gtk_window_object_path`: a string or `null`. -/
  gtk_window_object_path : Option String
  /-- Result of `get_monitor()`; negative when the window is on no monitor. -/
  monitor : Int
  /-- Result of `get_frame_rect()`. -/
  frame_rect : Rectangle

/-- The per-window signals the extension connects to. -/
inductive Signal
  | notify_gtk_application_id
  | notify_gtk_window_object_path
  | unmanaging
  | unmanaged
  | size_changed
  deriving DecidableEq

/-- The functions of `extension.js` that are connected as per-window signal handlers. -/
inductive Handler
  | track_window
  | untrack_window
  | update_height_setting
  deriving DecidableEq

/-- One `win.connect(signal, handler)` made by the extension. -/
structure Connection where
  win : WinId
  signal : Signal
  handler : Handler
  deriving DecidableEq

/-- An identifier returned by `Gio.bus_watch_name` or by `connect`; GLib never
returns 0 for either. -/
structure HandlerId where
  val : Nat
  pos : 0 < val
  deriving DecidableEq

/-- The proxy object returned by `Gio.DBusActionGroup.get(connection, name, path)`. -/
structure ActionGroup where
  /-- Identity of the JavaScript object. -/
  object : Nat
  connection : Nat
  name : String
  object_path : String
  deriving DecidableEq

/-- Calls from the extension into the shell, GLib and the companion process. -/
inductive Effect
  | addKeybinding (name : String)
  | removeKeybinding (name : String)
  | bus_watch_name (name : String) (id : HandlerId)
  | bus_unwatch_name (id : HandlerId)
  | display_connect (signal : String) (id : HandlerId)
  | display_disconnect (id : HandlerId)
  | action_group_get (g : ActionGroup)
  | run_dispose (g : ActionGroup)
  | activate_action (g : ActionGroup) (action : String) (parameter : Option String)
  | spawn (argv : List String)
  | connect (win : WinId) (signal : Signal) (handler : Handler)
  | move_resize_frame (win : WinId) (user_op : Bool) (x y width height : Int)
  | activateWindow (win : WinId)
  | make_above (win : WinId)
  | stick (win : WinId)
  | set_double (key : String) (value : JSNumber)
  deriving DecidableEq

/-- Everything the extension reads but does not own. -/
structure Env where
  /-- Attributes of each compositor window. -/
  window : WinId → Window
  /-- The value `Main.layoutManager.currentMonitor.index`. -/
  currentMonitor_index : Int
  /-- The function `Main.layoutManager.getWorkAreaForMonitor`. -/
  getWorkAreaForMonitor : Int → Rectangle
  /-- The flag `Main.sessionMode.allowExtensions`. -/
  allowExtensions : Bool
  /-- The path `Me.dir.get_child('application.js').get_path()`. -/
  application_js_path : String
  /-- Conversion of a JavaScript number to the `int` parameter of
  `Meta.Window.move_resize_frame`, performed by the language binding. -/
  to_gint : JSNumber → Int

/-- Module state of `extension.js` together with the collaborator state it mutates. -/
structure State where
  current_window : Option WinId
  created_handler_id : Option HandlerId
  bus_watch_id : Option HandlerId
  dbus_action_group : Option ActionGroup
  /-- Value stored in the settings under `window-height`. -/
  window_height : JSNumber
  /-- Per-window connections made so far, in connection order. -/
  connections : List Connection
  /-- Counter from which identifiers and object identities are allocated. -/
  next_id : Nat
  /-- Calls issued so far, oldest first. -/
  trace : List Effect

/-- State after the module has been loaded and `init()` has run, with the persisted
ratio `r`. -/
def State.initial (r : JSNumber) : State :=
  { current_window := none, created_handler_id := none, bus_watch_id := none,
    dbus_action_group := none, window_height := r, connections := [], next_id := 0,
    trace := [] }

/-- Record one call in the trace. -/
def State.log (s : State) (e : Effect) : State :=
  { s with trace := s.trace ++ [e] }

/-- The call `win.connect(signal, handler)`. -/
def State.connect (s : State) (win : WinId) (signal : Signal) (handler : Handler) : State :=
  { s with connections := s.connections ++ [⟨win, signal, handler⟩],
           trace := s.trace ++ [Effect.connect win signal handler] }

/-! ## Functions of `extension.js` -/

/-- The function `stop_dbus_watch`. -/
def stop_dbus_watch (s : State) : State :=
  match s.bus_watch_id with
  | some id =>
    if id.val ≠ 0 then { (s.log (.bus_unwatch_name id)) with bus_watch_id := none } else s
  | none => s

/-- The function `disconnect_created_handler`. -/
def disconnect_created_handler (s : State) : State :=
  match s.created_handler_id with
  | some id =>
    if id.val ≠ 0 then { (s.log (.display_disconnect id)) with created_handler_id := none }
    else s
  | none => s

/-- The function `dispose_action_group`. -/
def dispose_action_group (s : State) : State :=
  match s.dbus_action_group with
  | some g => { (s.log (.run_dispose g)) with dbus_action_group := none }
  | none => s

/-- The function `enable`. -/
def enable (s : State) : State :=
  let s := s.log (.addKeybinding "ddterm-toggle-hotkey")
  let s := stop_dbus_watch s
  let watch : HandlerId := ⟨s.next_id + 1, Nat.succ_pos _⟩
  let s := { (s.log (.bus_watch_name APP_ID watch)) with
             bus_watch_id := some watch, next_id := s.next_id + 1 }
  let s := disconnect_created_handler s
  let created : HandlerId := ⟨s.next_id + 1, Nat.succ_pos _⟩
  { (s.log (.display_connect "window-created" created)) with
    created_handler_id := some created, next_id := s.next_id + 1 }

/-- The function `disable`. -/
def disable (env : Env) (s : State) : State :=
  let s :=
    if env.allowExtensions then
      match s.dbus_action_group with
      | some g => s.log (.activate_action g "quit" none)
      | none => s
    else s
  let s := stop_dbus_watch s
  let s := dispose_action_group s
  let s := disconnect_created_handler s
  s.log (.removeKeybinding "ddterm-toggle-hotkey")

/-- The function `toggle`. -/
def toggle (env : Env) (s : State) : State :=
  match s.dbus_action_group with
  | some g => s.log (.activate_action g "toggle" none)
  | none => s.log (.spawn ["gjs", env.application_js_path, "--undecorated"])

/-- The function `dbus_appeared`. -/
def dbus_appeared (s : State) (connection : Nat) (name : String) : State :=
  let s := dispose_action_group s
  let g : ActionGroup := ⟨s.next_id, connection, name, APP_DBUS_PATH⟩
  { (s.log (.action_group_get g)) with dbus_action_group := some g, next_id := s.next_id + 1 }

/-- The function `dbus_disappeared`. -/
def dbus_disappeared (s : State) : State :=
  dispose_action_group s

/-- The function `is_dropdown_terminal_window`: the value of
`id === APP_ID && path && path.startsWith(WINDOW_PATH_PREFIX)`, where `&&` yields its
left operand when that is falsy and its right operand otherwise. -/
def is_dropdown_terminal_window (win : Window) : JSValue :=
  if win.gtk_application_id = some APP_ID then
    match win.gtk_window_object_path with
    | none => .null
    | some path =>
      if path = "" then .str path else .bool (startsWith path WINDOW_PATH_PREFIX)
  else .bool false

/-- The function `track_window`. -/
def track_window (env : Env) (s : State) (win : WinId) : State :=
  if !(is_dropdown_terminal_window (env.window win)).truthy then s
  else if s.current_window = some win then s
  else
    let s := { s with current_window := some win }
    let s := s.connect win .unmanaging .untrack_window
    let s := s.connect win .unmanaged .untrack_window
    let s := s.connect win .size_changed .update_height_setting
    let height_ratio := s.window_height
    let workarea := env.getWorkAreaForMonitor env.currentMonitor_index
    let s := s.log (.move_resize_frame win true workarea.x workarea.y workarea.width
      (env.to_gint (jsMul workarea.height height_ratio)))
    let s := s.log (.activateWindow win)
    let s := s.log (.make_above win)
    s.log (.stick win)

/-- The function `handle_created`. -/
def handle_created (env : Env) (s : State) (win : WinId) : State :=
  let s := s.connect win .notify_gtk_application_id .track_window
  let s := s.connect win .notify_gtk_window_object_path .track_window
  track_window env s win

/-- The function `update_height_setting`. -/
def update_height_setting (env : Env) (s : State) (win : WinId) : State :=
  match s.current_window with
  | none => s
  | some current =>
    if win ≠ current then s
    else
      let monitor := (env.window current).monitor
      if monitor < 0 then s
      else
        let workarea := env.getWorkAreaForMonitor monitor
        let current_height := jsDiv (env.window win).frame_rect.height workarea.height
        { s with window_height := current_height }.log
          (.set_double "window-height" current_height)

/-- The function `untrack_window`. -/
def untrack_window (s : State) (win : WinId) : State :=
  if s.current_window = some win then { s with current_window := none } else s

/-! ## Signal delivery -/

/-- Run one connected handler with the emitting window as argument. -/
def call_handler (env : Env) (s : State) (win : WinId) : Handler → State
  | .track_window => track_window env s win
  | .untrack_window => untrack_window s win
  | .update_height_setting => update_height_setting env s win

/-- The handlers connected to `signal` on `win`, in connection order. -/
def handlers_of (s : State) (win : WinId) (signal : Signal) : List Handler :=
  (s.connections.filter (fun c => c.win = win ∧ c.signal = signal)).map (·.handler)

/-- The compositor emits `signal` on `win`: the handlers connected when the emission
starts run in connection order. -/
def emit_signal (env : Env) (s : State) (win : WinId) (signal : Signal) : State :=
  (handlers_of s win signal).foldl (fun st h => call_handler env st win h) s

/-- The effects appended to the trace between `s` and `s'`. -/
def new_effects (s s' : State) : List Effect :=
  s'.trace.drop s.trace.length


/-! ## The settle wait of `extension_tests.js` -/

/-- The six event sources `wait_window_settle` subscribes to. -/
inductive SettleSource
  | position_changed
  | size_changed
  | notify_maximized_vertically
  | notify_maximized_horizontally
  | move_resize_requested
  | cursor_moved
  deriving DecidableEq

/-- Modelled from the spec: `Extension.ConnectionSet`, which `wait_window_settle` uses
and whose definition is not among the sources.  The spec describes it as "a minimal
pub/sub utility wrapping attach/detach of listeners to external notification sources,
with bulk detachment": `connect` attaches one listener, `disconnect` detaches all. -/
structure ConnectionSet where
  connections : List SettleSource
  deriving DecidableEq

/-- Attach a listener to one source. -/
def ConnectionSet.connect (c : ConnectionSet) (src : SettleSource) : ConnectionSet :=
  ⟨c.connections ++ [src]⟩

/-- Detach every listener. -/
def ConnectionSet.disconnect (_c : ConnectionSet) : ConnectionSet :=
  ⟨[]⟩

/-- State of one `wait_window_settle` call and of the GLib main loop serving it.
Times are in milliseconds. -/
structure SettleState where
  /-- Current time. -/
  now : Nat
  /-- The closure variable `timer_id`. -/
  timer_id : Option Nat
  /-- Pending GLib timeout sources, as (identifier, deadline). -/
  sources : List (Nat × Nat)
  /-- Next identifier `GLib.timeout_add` returns. -/
  next_source : Nat
  /-- The closure variable `handlers`. -/
  handlers : ConnectionSet
  /-- Times at which `resolve()` has been called, oldest first. -/
  resolved : List Nat

/-- The closure `restart_timer`: remove the pending source, if any, and add a new one
that is due `idle_timeout_ms` from now. -/
def restart_timer (idle_timeout_ms : Nat) (s : SettleState) : SettleState :=
  let s :=
    match s.timer_id with
    | some id => { s with sources := s.sources.filter (fun p => p.1 ≠ id) }
    | none => s
  { s with timer_id := some s.next_source,
           sources := s.sources ++ [(s.next_source, s.now + idle_timeout_ms)],
           next_source := s.next_source + 1 }

/-- The closure `ready`, run by the main loop at time `t`: disconnect the handlers and
resolve the promise.  It returns `GLib.SOURCE_REMOVE`; the caller drops the source. -/
def ready (t : Nat) (s : SettleState) : SettleState :=
  { s with handlers := s.handlers.disconnect, resolved := s.resolved ++ [t] }

/-- The function `wait_window_settle`, called at time `start`: connect the six handlers
and start the timer. -/
def wait_window_settle (start idle_timeout_ms : Nat) : SettleState :=
  let handlers : ConnectionSet := ⟨[]⟩
  let handlers := handlers.connect .position_changed
  let handlers := handlers.connect .size_changed
  let handlers := handlers.connect .notify_maximized_vertically
  let handlers := handlers.connect .notify_maximized_horizontally
  let handlers := handlers.connect .move_resize_requested
  let handlers := handlers.connect .cursor_moved
  restart_timer idle_timeout_ms
    { now := start, timer_id := none, sources := [], next_source := 1,
      handlers := handlers, resolved := [] }

/-- Time advances to `t`: every pending source whose deadline has been reached fires at
its deadline, oldest first, and is removed. -/
def advance (t : Nat) (s : SettleState) : SettleState :=
  let s := (s.sources.filter (fun p => p.2 ≤ t)).foldl
    (fun st p => ready p.2 { st with sources := st.sources.erase p }) s
  { s with now := max s.now t }

/-- A subscribed source emits at time `t`: each handler still connected to it calls
`restart_timer`. -/
def deliver (idle_timeout_ms : Nat) (src : SettleSource) (t : Nat) (s : SettleState) :
    SettleState :=
  let s := advance t s
  (s.handlers.connections.filter (fun c => c = src)).foldl
    (fun st _ => restart_timer idle_timeout_ms st) s

/-- What the main loop can do next. -/
inductive SettleStep
  | event (src : SettleSource) (t : Nat)
  | tick (t : Nat)

/-- Run one step. -/
def SettleStep.run (idle_timeout_ms : Nat) (s : SettleState) : SettleStep → SettleState
  | .event src t => deliver idle_timeout_ms src t s
  | .tick t => advance t s

/-- Run a sequence of steps. -/
def run_steps (idle_timeout_ms : Nat) (steps : List SettleStep) (s : SettleState) :
    SettleState :=
  steps.foldl (SettleStep.run idle_timeout_ms) s

/-- Deliver a burst of events, each given with its source and time. -/
def run_events (idle_timeout_ms : Nat) (evs : List (SettleSource × Nat)) (s : SettleState) :
    SettleState :=
  evs.foldl (fun st e => deliver idle_timeout_ms e.1 e.2 st) s

/-- Time of the last event of a burst, or `start` for the empty burst. -/
def last_time (start : Nat) : List (SettleSource × Nat) → Nat
  | [] => start
  | e :: rest => last_time e.2 rest

/-- The six connections `wait_window_settle` makes, in program order. -/
def settle_sources : List SettleSource :=
  [ .position_changed, .size_changed, .notify_maximized_vertically,
    .notify_maximized_horizontally, .move_resize_requested, .cursor_moved ]

/-- The wait is pending at time `now`: nothing resolved, all six handlers connected and
exactly one timeout source pending, due `idle_timeout_ms` after `now`. -/
def Armed (idle_timeout_ms now : Nat) (s : SettleState) : Prop :=
  s.now = now ∧ s.resolved = [] ∧ s.handlers.connections = settle_sources ∧
  ∃ id, s.timer_id = some id ∧ s.sources = [(id, now + idle_timeout_ms)]

/-- The wait is over: no handler connected and no timeout source pending. -/
def Settled (s : SettleState) : Prop :=
  s.handlers.connections = [] ∧ s.sources = []

/-! ## Bus notifications -/

/-- A notification of the bus-name watch. -/
inductive BusEvent
  | appeared (connection : Nat) (name : String)
  | disappeared

/-- Run the callback registered for one notification. -/
def BusEvent.run (s : State) : BusEvent → State
  | .appeared connection name => dbus_appeared s connection name
  | .disappeared => dbus_disappeared s

/-- Run the callbacks for a sequence of notifications. -/
def run_bus (evs : List BusEvent) (s : State) : State :=
  evs.foldl BusEvent.run s

/-! ## Reference definitions and sample data -/

/-- The reference for `update_height_setting` in the words of the specification: the
current window on a monitor writes frame height over work-area height once; every
other call does nothing. -/
def update_height_setting_reference (env : Env) (s : State) (win : WinId) : State :=
  if s.current_window = some win ∧ 0 ≤ (env.window win).monitor then
    let ratio := jsDiv (env.window win).frame_rect.height
      (env.getWorkAreaForMonitor (env.window win).monitor).height
    { s with window_height := ratio, trace := s.trace ++ [.set_double "window-height" ratio] }
  else s

/-- The ECMAScript conversion `ToInt32`: truncate towards zero, wrap modulo 2^32;
non-finite numbers convert to 0. -/
def toInt32 : JSNumber → Int
  | .finite q =>
    let m := (Int.tdiv q.num q.den) % 4294967296
    if 2147483648 ≤ m then m - 4294967296 else m
  | _ => 0

/-- A window of the companion process with the given frame height; window 2 is exported
under its own object path. -/
def terminal_window (id : WinId) (height : Int) : Window :=
  { gtk_application_id := some "com.github.amezin.ddterm",
    gtk_window_object_path :=
      some (if id = 2 then "/com/github/amezin/ddterm/window/2"
        else "/com/github/amezin/ddterm/window/1"),
    monitor := 0,
    frame_rect := ⟨0, 0, 1920, height⟩ }

/-- One monitor with work area (0, 0, 1920, 1080); every window is a companion window
with the given frame height. -/
def sample_env (height : Int) : Env :=
  { window := fun id => terminal_window id height,
    currentMonitor_index := 0,
    getWorkAreaForMonitor := fun _ => ⟨0, 0, 1920, 1080⟩,
    allowExtensions := true,
    application_js_path := "/extension/application.js",
    to_gint := toInt32 }

/-- The state in which window 1 has been adopted from the initial state with ratio
one half. -/
def tracking_first : State :=
  handle_created (sample_env 540) (State.initial (.finite (1 / 2))) 1

/-- The number of writes of `window-height` in a list of effects. -/
def height_writes (es : List Effect) : Nat :=
  es.countP (fun e => match e with
    | .set_double key _ => key = "window-height"
    | _ => false)

/-- The number of move/resize requests in a list of effects. -/
def move_resize_requests (es : List Effect) : Nat :=
  es.countP (fun e => match e with
    | .move_resize_frame _ _ _ _ _ _ => true
    | _ => false)

/-- The number of remote activations of `action` in a list of effects. -/
def activations (action : String) (es : List Effect) : Nat :=
  es.countP (fun e => match e with
    | .activate_action _ a _ => a = action
    | _ => false)

/-- The number of spawns in a list of effects. -/
def spawns (es : List Effect) : Nat :=
  es.countP (fun e => match e with
    | .spawn _ => true
    | _ => false)

/-- The effects of an adoption of `win`, in program order. -/
def adoption_effects (env : Env) (ratio : JSNumber) (win : WinId) : List Effect :=
  let workarea := env.getWorkAreaForMonitor env.currentMonitor_index
  [ .connect win .unmanaging .untrack_window,
    .connect win .unmanaged .untrack_window,
    .connect win .size_changed .update_height_setting,
    .move_resize_frame win true workarea.x workarea.y workarea.width
      (env.to_gint (jsMul workarea.height ratio)),
    .activateWindow win,
    .make_above win,
    .stick win ]

/-- The connections an adoption of `win` adds, in program order. -/
def adoption_connections (win : WinId) : List Connection :=
  [ ⟨win, .unmanaging, .untrack_window⟩,
    ⟨win, .unmanaged, .untrack_window⟩,
    ⟨win, .size_changed, .update_height_setting⟩ ]

/-- The calls `disable` issues from state `s`, in program order. -/
def disable_effects (env : Env) (s : State) : List Effect :=
  (if env.allowExtensions then
    match s.dbus_action_group with
    | some g => [Effect.activate_action g "quit" none]
    | none => []
  else []) ++
  (match s.bus_watch_id with
    | some id => [Effect.bus_unwatch_name id]
    | none => []) ++
  (match s.dbus_action_group with
    | some g => [Effect.run_dispose g]
    | none => []) ++
  (match s.created_handler_id with
    | some id => [Effect.display_disconnect id]
    | none => []) ++
  [Effect.removeKeybinding "ddterm-toggle-hotkey"]

/-- A burst of `size-changed` notifications on `win`, each delivered under the
environment the compositor presents at that moment. -/
def size_changed_burst (envs : List Env) (s : State) (win : WinId) : State :=
  envs.foldl (fun st env => emit_signal env st win .size_changed) s

/-- The ratio `update_height_setting` computes for `win` under `env`. -/
def height_ratio_of (env : Env) (win : WinId) : JSNumber :=
  jsDiv (env.window win).frame_rect.height
    (env.getWorkAreaForMonitor (env.window win).monitor).height

/-- A state with a held handle, a bus watch and a window-created handler: `enable()`
followed by an appearance of the bus name. -/
def enabled_present : State :=
  dbus_appeared (enable (State.initial (.finite (1 / 2)))) 7 "com.github.amezin.ddterm"


/-! ## Window events -/

/-- A change of one of the two identity attributes of a window. -/
inductive IdentityChange
  | gtk_application_id (value : Option String)
  | gtk_window_object_path (value : Option String)

/-- The `notify` signal the compositor emits for a change. -/
def IdentityChange.signal : IdentityChange → Signal
  | .gtk_application_id _ => .notify_gtk_application_id
  | .gtk_window_object_path _ => .notify_gtk_window_object_path

/-- The environment after the attribute of `win` has been changed. -/
def IdentityChange.apply (env : Env) (win : WinId) : IdentityChange → Env
  | .gtk_application_id value =>
    { env with window := fun w =>
        if w = win then { env.window w with gtk_application_id := value } else env.window w }
  | .gtk_window_object_path value =>
    { env with window := fun w =>
        if w = win then { env.window w with gtk_window_object_path := value }
        else env.window w }

/-- The compositor changes an identity attribute of `win` and emits the matching
`notify` signal on it. -/
def identity_changed (win : WinId) (sys : Env × State) (change : IdentityChange) :
    Env × State :=
  (change.apply sys.1 win, emit_signal (change.apply sys.1 win) sys.2 win change.signal)

/-- A sequence of identity-attribute changes of `win`. -/
def run_identity_changes (win : WinId) (changes : List IdentityChange) (sys : Env × State) :
    Env × State :=
  changes.foldl (identity_changed win) sys

/-- The window-lifecycle events the compositor reports. -/
inductive WindowEvent
  | created (win : WinId)
  | identity_changed (win : WinId) (change : IdentityChange)
  | unmanaging (win : WinId)
  | unmanaged (win : WinId)

/-- Run the callbacks of one event. -/
def WindowEvent.run (sys : Env × State) : WindowEvent → Env × State
  | .created win => (sys.1, handle_created sys.1 sys.2 win)
  | .identity_changed win change => DDTerm.identity_changed win sys change
  | .unmanaging win => (sys.1, emit_signal sys.1 sys.2 win .unmanaging)
  | .unmanaged win => (sys.1, emit_signal sys.1 sys.2 win .unmanaged)

/-- Run the callbacks of a sequence of events. -/
def run_window_events (evs : List WindowEvent) (sys : Env × State) : Env × State :=
  evs.foldl WindowEvent.run sys

/-- The event does not take the identity away from the current window: it is not an
identity change of the current window, or the current window still resolves after it. -/
def keeps_current_identity (sys : Env × State) : WindowEvent → Prop
  | .identity_changed win change =>
    sys.2.current_window = some win →
      (is_dropdown_terminal_window ((change.apply sys.1 win).window win)).truthy = true
  | _ => True

/-- Every event of the sequence keeps the identity of the window that is current when
the event arrives. -/
def all_keep_current_identity (sys : Env × State) : List WindowEvent → Prop
  | [] => True
  | ev :: rest => keeps_current_identity sys ev ∧ all_keep_current_identity (ev.run sys) rest

/-- The current window, if any, resolves. -/
def tracked_resolves (sys : Env × State) : Prop :=
  ∀ win, sys.2.current_window = some win →
    (is_dropdown_terminal_window (sys.1.window win)).truthy = true

/-- The two connections `handle_created` makes on `win`, as effects. -/
def created_effects (win : WinId) : List Effect :=
  [ .connect win .notify_gtk_application_id .track_window,
    .connect win .notify_gtk_window_object_path .track_window ]

/-! ## Broker events -/

/-- The events that touch the action-group handle. -/
inductive BrokerEvent
  | enable
  | appeared (connection : Nat) (name : String)
  | disappeared
  | disable (env : Env)

/-- Run the function called for one event. -/
def BrokerEvent.run (s : State) : BrokerEvent → State
  | .enable => DDTerm.enable s
  | .appeared connection name => dbus_appeared s connection name
  | .disappeared => dbus_disappeared s
  | .disable env => DDTerm.disable env s

/-- Run a sequence of broker events. -/
def run_broker (evs : List BrokerEvent) (s : State) : State :=
  evs.foldl BrokerEvent.run s

/-- The handles acquired and not yet disposed, after one more effect. -/
def live_step (live : List ActionGroup) : Effect → List ActionGroup
  | .action_group_get g => live ++ [g]
  | .run_dispose g => live.erase g
  | _ => live

/-- The handles a trace has acquired and not disposed. -/
def live_handles (trace : List Effect) : List ActionGroup :=
  trace.foldl live_step []

/-- The handles a trace has disposed, one entry per `run_dispose` call. -/
def disposed_handles (trace : List Effect) : List ActionGroup :=
  trace.filterMap (fun e => match e with
    | .run_dispose g => some g
    | _ => none)

/-- The state `handle_created` reaches before it calls `track_window`. -/
def created_state (s : State) (win : WinId) : State :=
  (s.connect win .notify_gtk_application_id .track_window).connect win
    .notify_gtk_window_object_path .track_window

/-- One monitor with work area (0, 0, 1920, 1080); no window carries identity
attributes yet. -/
def blank_env : Env :=
  { window := fun _ =>
      { gtk_application_id := none, gtk_window_object_path := none, monitor := 0,
        frame_rect := ⟨0, 0, 1920, 540⟩ },
    currentMonitor_index := 0,
    getWorkAreaForMonitor := fun _ => ⟨0, 0, 1920, 1080⟩,
    allowExtensions := true,
    application_js_path := "/extension/application.js",
    to_gint := toInt32 }

/-- The effect neither acquires nor disposes a handle. -/
def handle_neutral : Effect → Bool
  | .action_group_get _ => false
  | .run_dispose _ => false
  | _ => true

/-- The bookkeeping of handles is consistent: the only live handle is the held one,
no handle has been disposed twice, the held handle has not been disposed, and every
object identity in use is below the allocation counter. -/
def handles_ok (s : State) : Prop :=
  live_handles s.trace = s.dbus_action_group.toList ∧
  (disposed_handles s.trace).Nodup ∧
  (∀ g ∈ disposed_handles s.trace, g.object < s.next_id) ∧
  ∀ g, s.dbus_action_group = some g → g.object < s.next_id ∧ g ∉ disposed_handles s.trace

/-- The state after `enable()`, an appearance of the bus name and the adoption of
window 1. -/
def enabled_tracking : State :=
  handle_created (sample_env 540) enabled_present 1

/-- The state after `enable()` and the creation of window 1 without identity
attributes. -/
def enabled_created : State :=
  handle_created blank_env (enable (State.initial (.finite (1 / 2)))) 1

end DDTerm

/-! # Theorems -/

namespace DDTerm

/-! ## Helper lemmas -/

theorem window_path_prefix_eq : WINDOW_PATH_PREFIX = "/com/github/amezin/ddterm/window/" := by
  decide

theorem app_id_eq : APP_ID = "com.github.amezin.ddterm" := rfl

theorem new_effects_of_trace (s s' : State) (l : List Effect) (h : s'.trace = s.trace ++ l) :
    new_effects s s' = l := by
  simp [new_effects, h]

theorem new_effects_self (s : State) : new_effects s s = [] := by
  simp [new_effects]

theorem track_window_not_resolved (env : Env) (s : State) (win : WinId)
    (h : (is_dropdown_terminal_window (env.window win)).truthy = false) :
    track_window env s win = s := by
  simp [track_window, h]

theorem track_window_current (env : Env) (s : State) (win : WinId)
    (h : s.current_window = some win) :
    track_window env s win = s := by
  simp [track_window, h]

theorem track_window_adopt (env : Env) (s : State) (win : WinId)
    (hres : (is_dropdown_terminal_window (env.window win)).truthy = true)
    (hcur : s.current_window ≠ some win) :
    track_window env s win =
      { s with current_window := some win,
               connections := s.connections ++ adoption_connections win,
               trace := s.trace ++ adoption_effects env s.window_height win } := by
  simp [track_window, hres, hcur, State.connect, State.log, adoption_connections,
    adoption_effects]

theorem track_window_eq_self_iff (env : Env) (s : State) (win : WinId) :
    track_window env s win = s ↔
      ((is_dropdown_terminal_window (env.window win)).truthy = false ∨
        s.current_window = some win) := by
  constructor
  · intro h
    by_cases hres : (is_dropdown_terminal_window (env.window win)).truthy = true
    · by_cases hcur : s.current_window = some win
      · exact Or.inr hcur
      · rw [track_window_adopt env s win hres hcur] at h
        have := congrArg State.current_window h
        exact absurd this.symm hcur
    · left
      simpa using hres
  · rintro (h | h)
    · exact track_window_not_resolved env s win h
    · exact track_window_current env s win h

theorem tracking_first_window_height : tracking_first.window_height = .finite (1 / 2) := by
  rfl

/-- The double nearest to 1/10 is 0x3FB999999999999A: the significand rounds up. -/
theorem binary64_parts_one_tenth : binary64_parts 1 10 = (7205759403792794, -56) := by
  decide

/-- The double nearest to 2^53 + 1 is 2^53: a tie goes to the even significand. -/
theorem binary64_parts_tie : binary64_parts 9007199254740993 1 = (4503599627370496, 1) := by
  decide

theorem roundToDouble_half : roundToDouble (1 / 2) = .finite (1 / 2) := by
  have h : binary64_parts 1 2 = (4503599627370496, -53) := by decide
  have hn : ((1 : ℚ) / 2).num.natAbs = 1 := by norm_num
  have hd : ((1 : ℚ) / 2).den = 2 := by norm_num
  simp only [roundToDouble, hn, hd, h]
  norm_num

theorem roundToDouble_540 : roundToDouble 540 = .finite 540 := by
  have h : binary64_parts 540 1 = (4749890231992320, -43) := by decide
  have hn : (540 : ℚ).num.natAbs = 540 := by norm_num
  have hd : (540 : ℚ).den = 1 := by norm_num
  simp only [roundToDouble, hn, hd, h]
  norm_num

theorem toInt32_half_of_1080 : toInt32 (jsMul 1080 (.finite (1 / 2))) = 540 := by
  have h : jsMul 1080 (.finite (1 / 2)) = .finite 540 := by
    simp only [jsMul, JSNumber.toDouble, roundToDouble_half]
    norm_num
    exact roundToDouble_540
  rw [h]
  simp [toInt32]

/-! ## Window identity (C2) -/

/-- Claim C2: `is_dropdown_terminal_window(win)` is truthy exactly when the application
id equals `com.github.amezin.ddterm` and the object path is a non-empty string starting
with `/com/github/amezin/ddterm/window/`.  Its value is a function of these two window
attributes alone; the embedded function neither takes nor returns any state. -/
theorem is_dropdown_terminal_window_truthy_iff (win : Window) :
    ((is_dropdown_terminal_window win).truthy = true ↔
      win.gtk_application_id = some "com.github.amezin.ddterm" ∧
      ∃ path, win.gtk_window_object_path = some path ∧ path ≠ "" ∧
        startsWith path "/com/github/amezin/ddterm/window/" = true) ∧
    ∀ other : Window, other.gtk_application_id = win.gtk_application_id →
      other.gtk_window_object_path = win.gtk_window_object_path →
      is_dropdown_terminal_window other = is_dropdown_terminal_window win := by
  refine ⟨?_, ?_⟩
  · unfold is_dropdown_terminal_window
    rw [window_path_prefix_eq, app_id_eq]
    by_cases hid : win.gtk_application_id = some "com.github.amezin.ddterm"
    · rw [if_pos hid]
      cases hpath : win.gtk_window_object_path with
      | none => simp [JSValue.truthy, hid]
      | some p =>
        by_cases hp : p = ""
        · simp [JSValue.truthy, hid, hp]
        · simp [JSValue.truthy, hid, hp]
    · rw [if_neg hid]
      simp [JSValue.truthy, hid]
  · intro other h1 h2
    simp [is_dropdown_terminal_window, h1, h2]

theorem is_dropdown_terminal_window_truthy_iff_witness :
    (is_dropdown_terminal_window (terminal_window 1 540)).truthy = true :=
  (is_dropdown_terminal_window_truthy_iff (terminal_window 1 540)).1.2
    ⟨rfl, "/com/github/amezin/ddterm/window/1", rfl, by decide, by decide⟩

/-! ## First resolving window versus later ones (C1) -/

/-- Claim C1, as amended: a window B that resolves and differs from the current window A
is adopted by `track_window(B)`: the current window becomes B, the three subscriptions
are made on B and move/resize, activate, make_above and stick are issued on B, in this
order.  `track_window` is a no-op exactly when the window does not resolve or is
already the current window. -/
theorem track_window_last_wins (env : Env) (s : State) (A B : WinId)
    (hA : s.current_window = some A) (hAB : B ≠ A)
    (hres : (is_dropdown_terminal_window (env.window B)).truthy = true) :
    (track_window env s B).current_window = some B ∧
    (track_window env s B).connections = s.connections ++ adoption_connections B ∧
    new_effects s (track_window env s B) = adoption_effects env s.window_height B ∧
    ∀ (env' : Env) (s' : State) (win : WinId),
      track_window env' s' win = s' ↔
        ((is_dropdown_terminal_window (env'.window win)).truthy = false ∨
          s'.current_window = some win) := by
  have hcur : s.current_window ≠ some B := by
    rw [hA]
    intro h
    exact hAB (Option.some.inj h).symm
  rw [track_window_adopt env s B hres hcur]
  refine ⟨rfl, rfl, ?_, track_window_eq_self_iff⟩
  exact new_effects_of_trace _ _ _ rfl

theorem track_window_last_wins_witness :
    (track_window (sample_env 540) tracking_first 2).current_window = some 2 :=
  (track_window_last_wins (sample_env 540) tracking_first 1 2 (by decide) (by decide)
    (by decide)).1

/-- Claim C1 fails as stated: with window 1 current, `track_window` on the resolving
window 2 is not a no-op; window 2 replaces window 1 as the current window and is
subscribed to, moved, activated, raised and stuck. -/
theorem track_window_second_window_replaces_first :
    tracking_first.current_window = some 1 ∧
    (is_dropdown_terminal_window ((sample_env 540).window 2)).truthy = true ∧
    (track_window (sample_env 540) tracking_first 2).current_window = some 2 ∧
    new_effects tracking_first (track_window (sample_env 540) tracking_first 2) =
      [ .connect 2 .unmanaging .untrack_window,
        .connect 2 .unmanaged .untrack_window,
        .connect 2 .size_changed .update_height_setting,
        .move_resize_frame 2 true 0 0 1920 540,
        .activateWindow 2,
        .make_above 2,
        .stick 2 ] := by
  refine ⟨by decide, by decide, by decide, ?_⟩
  rw [track_window_adopt _ _ _ (by decide) (by decide)]
  rw [new_effects_of_trace _ _ _ rfl, tracking_first_window_height]
  simp only [adoption_effects, sample_env]
  rw [toInt32_half_of_1080]

/-! ## Stale lifecycle events (C5) -/

theorem untrack_window_of_current (s : State) (win : WinId) (h : s.current_window = some win) :
    untrack_window s win = { s with current_window := none } := by
  simp [untrack_window, h]

theorem untrack_window_of_other (s : State) (win : WinId) (h : s.current_window ≠ some win) :
    untrack_window s win = s := by
  simp [untrack_window, h]

theorem untrack_window_idem (s : State) (win : WinId) :
    untrack_window (untrack_window s win) win = untrack_window s win := by
  by_cases h : s.current_window = some win
  · rw [untrack_window_of_current s win h]
    simp [untrack_window]
  · rw [untrack_window_of_other s win h, untrack_window_of_other s win h]

theorem untrack_window_connections (s : State) (win : WinId) :
    (untrack_window s win).connections = s.connections := by
  unfold untrack_window
  split <;> rfl

theorem handlers_of_untrack_window (s : State) (win w : WinId) (signal : Signal) :
    handlers_of (untrack_window s win) w signal = handlers_of s w signal := by
  simp [handlers_of, untrack_window_connections]

theorem foldl_untrack_window (env : Env) (win : WinId) (n : Nat) (s : State) :
    (List.replicate (n + 1) Handler.untrack_window).foldl
      (fun st h => call_handler env st win h) s = untrack_window s win := by
  induction n generalizing s with
  | zero => simp [call_handler]
  | succ k ih =>
    rw [List.replicate_succ, List.foldl_cons, ih]
    simp [call_handler, untrack_window_idem]

/-- Claim C5: `untrack_window(win)` clears the current window when `win` is the current
window and otherwise changes nothing at all; it is idempotent, so when the extension's
handlers for `unmanaging` and `unmanaged` on a window are the `untrack_window`
connections of its adoptions, delivering `unmanaging` and then `unmanaged` leaves the
state that `unmanaging` alone leaves. -/
theorem untrack_window_ignores_stale (s : State) (win : WinId) :
    (s.current_window = some win → untrack_window s win = { s with current_window := none }) ∧
    (s.current_window ≠ some win → untrack_window s win = s) ∧
    untrack_window (untrack_window s win) win = untrack_window s win ∧
    ∀ (env : Env) (n : Nat),
      handlers_of s win .unmanaging = List.replicate (n + 1) .untrack_window →
      handlers_of s win .unmanaged = List.replicate (n + 1) .untrack_window →
      emit_signal env s win .unmanaging = untrack_window s win ∧
      emit_signal env (emit_signal env s win .unmanaging) win .unmanaged =
        emit_signal env s win .unmanaging := by
  refine ⟨untrack_window_of_current s win, untrack_window_of_other s win,
    untrack_window_idem s win, ?_⟩
  intro env n h1 h2
  have e1 : emit_signal env s win .unmanaging = untrack_window s win := by
    unfold emit_signal
    rw [h1, foldl_untrack_window]
  refine ⟨e1, ?_⟩
  rw [e1]
  unfold emit_signal
  rw [handlers_of_untrack_window, h2, foldl_untrack_window, untrack_window_idem]

theorem untrack_window_ignores_stale_witness :
    untrack_window tracking_first 2 = tracking_first ∧
    (untrack_window tracking_first 1).current_window = none ∧
    emit_signal (sample_env 540) (emit_signal (sample_env 540) tracking_first 1 .unmanaging) 1
      .unmanaged = emit_signal (sample_env 540) tracking_first 1 .unmanaging := by
  have h := untrack_window_ignores_stale tracking_first
  refine ⟨(h 2).2.1 (by decide), ?_, ((h 1).2.2.2 (sample_env 540) 0 (by decide) (by decide)).2⟩
  rw [(h 1).1 (by decide)]

/-! ## Height persistence and initial geometry (C6, C7, C8) -/

theorem update_height_setting_write (env : Env) (s : State) (win : WinId)
    (hcur : s.current_window = some win) (hmon : 0 ≤ (env.window win).monitor) :
    update_height_setting env s win =
      { s with
        window_height := jsDiv (env.window win).frame_rect.height
          (env.getWorkAreaForMonitor (env.window win).monitor).height,
        trace := s.trace ++ [.set_double "window-height"
          (jsDiv (env.window win).frame_rect.height
            (env.getWorkAreaForMonitor (env.window win).monitor).height)] } := by
  simp [update_height_setting, hcur, not_lt.mpr hmon, State.log]

theorem update_height_setting_skip (env : Env) (s : State) (win : WinId)
    (h : ¬ (s.current_window = some win ∧ 0 ≤ (env.window win).monitor)) :
    update_height_setting env s win = s := by
  unfold update_height_setting
  cases hc : s.current_window with
  | none => rfl
  | some current =>
    by_cases hw : win = current
    · subst hw
      have hm : (env.window win).monitor < 0 := by
        by_contra hm
        exact h ⟨hc, not_lt.mp hm⟩
      simp [hm]
    · simp [hw]

/-- Claim C6: `update_height_setting(win)` is the reference definition: when `win` is the
current window and its monitor index is at least 0 it writes `window-height` once, with
the frame height divided by the height of that monitor's work area; in every other case
it returns the state unchanged, trace included. -/
theorem update_height_setting_eq_reference (env : Env) (s : State) (win : WinId) :
    update_height_setting env s win = update_height_setting_reference env s win ∧
    (s.current_window = some win → 0 ≤ (env.window win).monitor →
      new_effects s (update_height_setting env s win) =
        [.set_double "window-height" (jsDiv (env.window win).frame_rect.height
          (env.getWorkAreaForMonitor (env.window win).monitor).height)] ∧
      (update_height_setting env s win).window_height =
        jsDiv (env.window win).frame_rect.height
          (env.getWorkAreaForMonitor (env.window win).monitor).height ∧
      height_writes (new_effects s (update_height_setting env s win)) = 1) ∧
    (¬ (s.current_window = some win ∧ 0 ≤ (env.window win).monitor) →
      update_height_setting env s win = s) := by
  refine ⟨?_, ?_, update_height_setting_skip env s win⟩
  · by_cases h : s.current_window = some win ∧ 0 ≤ (env.window win).monitor
    · rw [update_height_setting_write env s win h.1 h.2]
      simp [update_height_setting_reference, h]
    · rw [update_height_setting_skip env s win h]
      simp [update_height_setting_reference, h]
  · intro hcur hmon
    rw [update_height_setting_write env s win hcur hmon, new_effects_of_trace _ _ _ rfl]
    exact ⟨rfl, rfl, by simp [height_writes]⟩

theorem update_height_setting_eq_reference_witness :
    new_effects tracking_first (update_height_setting (sample_env 324) tracking_first 1) =
      [.set_double "window-height" (.finite (3 / 10))] := by
  have h := ((update_height_setting_eq_reference (sample_env 324) tracking_first 1).2.1
    (by decide) (by decide)).1
  rw [h]
  norm_num [jsDiv, sample_env, terminal_window]

theorem toInt32_finite (p : ℚ) (h1 : -2147483648 < p) (h2 : p < 2147483648) :
    toInt32 (.finite p) = if 0 ≤ p then ⌊p⌋ else ⌈p⌉ := by
  have hden : (0 : Int) < (p.den : Int) := by exact_mod_cast p.den_pos
  by_cases hp : 0 ≤ p
  · rw [if_pos hp]
    have hnum : 0 ≤ p.num := Rat.num_nonneg.mpr hp
    have hfloor : ⌊p⌋ = p.num / (p.den : Int) := Rat.floor_def' p
    have htdiv : Int.tdiv p.num (p.den : Int) = p.num / (p.den : Int) :=
      Int.tdiv_eq_ediv hnum (le_of_lt hden)
    have hlo : 0 ≤ ⌊p⌋ := Int.floor_nonneg.mpr hp
    have hhi : ⌊p⌋ < 2147483648 := by
      have : (⌊p⌋ : ℚ) ≤ p := Int.floor_le p
      have : (⌊p⌋ : ℚ) < 2147483648 := lt_of_le_of_lt this h2
      exact_mod_cast this
    simp only [toInt32, htdiv, ← hfloor]
    omega
  · rw [if_neg hp]
    have hp' : p < 0 := not_le.mp hp
    have hceil : ⌈p⌉ = -⌊-p⌋ := by rw [Int.floor_neg, neg_neg]
    have hfloor : ⌊-p⌋ = (-p.num) / (p.den : Int) := by
      have h : ⌊-p⌋ = (-p).num / ((-p).den : Int) := Rat.floor_def' (-p)
      rw [h]
      simp
    have hnum : 0 ≤ -p.num := by
      have : p.num < 0 := Rat.num_neg.mpr hp'
      omega
    have htdiv : Int.tdiv p.num (p.den : Int) = -((-p.num) / (p.den : Int)) := by
      have := Int.tdiv_eq_ediv hnum (le_of_lt hden)
      rw [← this, Int.neg_tdiv, neg_neg]
    have hlo : 0 ≤ ⌊-p⌋ := Int.floor_nonneg.mpr (by linarith)
    have hhi : ⌊-p⌋ < 2147483648 := by
      have : (⌊-p⌋ : ℚ) ≤ -p := Int.floor_le (-p)
      have : (⌊-p⌋ : ℚ) < 2147483648 := by linarith
      exact_mod_cast this
    simp only [toInt32, htdiv, ← hfloor, hceil]
    omega

theorem roundToDouble_three_tenths :
    roundToDouble (3 / 10) = .finite (5404319552844595 / 18014398509481984) := by
  have h : binary64_parts 3 10 = (5404319552844595, -54) := by decide
  have hn : ((3 : ℚ) / 10).num.natAbs = 3 := by norm_num
  have hd : ((3 : ℚ) / 10).den = 10 := by norm_num
  simp only [roundToDouble, hn, hd, h]
  norm_num

theorem roundToDouble_312_of_1080 :
    roundToDouble (312 / 1080) = .finite (5204159569405906 / 18014398509481984) := by
  have h : binary64_parts 13 45 = (5204159569405906, -54) := by decide
  have hn : ((312 : ℚ) / 1080).num.natAbs = 13 := by norm_num
  have hd : ((312 : ℚ) / 1080).den = 45 := by norm_num
  simp only [roundToDouble, hn, hd, h]
  norm_num

theorem jsMul_1080_three_tenths :
    jsMul 1080 (.finite (5404319552844595 / 18014398509481984)) = .finite 324 := by
  have h1 : binary64_parts 5404319552844595 18014398509481984 =
      (5404319552844595, -54) := by decide
  have hn1 : ((5404319552844595 : ℚ) / 18014398509481984).num.natAbs =
      5404319552844595 := by norm_num
  have hd1 : ((5404319552844595 : ℚ) / 18014398509481984).den = 18014398509481984 := by
    norm_num
  have hr : roundToDouble (5404319552844595 / 18014398509481984) =
      .finite (5404319552844595 / 18014398509481984) := by
    simp only [roundToDouble, hn1, hd1, h1]
    norm_num
  have h2 : binary64_parts 729583139634020325 2251799813685248 =
      (5699868278390784, -44) := by decide
  have hn2 : (((1080 : Int) : ℚ) * (5404319552844595 / 18014398509481984)).num.natAbs =
      729583139634020325 := by norm_num
  have hd2 : (((1080 : Int) : ℚ) * (5404319552844595 / 18014398509481984)).den =
      2251799813685248 := by norm_num
  have hm : ∀ r : ℚ, roundToDouble r = .finite r →
      jsMul 1080 (.finite r) = roundToDouble (((1080 : Int) : ℚ) * r) := by
    intro r h
    simp only [jsMul, JSNumber.toDouble, h]
  rw [hm _ hr]
  simp only [roundToDouble, hn2, hd2, h2]
  norm_num

theorem jsMul_1080_312_of_1080 :
    jsMul 1080 (.finite (5204159569405906 / 18014398509481984)) =
      .finite (5488762045857791 / 17592186044416) := by
  have h1 : binary64_parts 2602079784702953 9007199254740992 =
      (5204159569405906, -54) := by decide
  have hn1 : ((5204159569405906 : ℚ) / 18014398509481984).num.natAbs =
      2602079784702953 := by norm_num
  have hd1 : ((5204159569405906 : ℚ) / 18014398509481984).den = 9007199254740992 := by
    norm_num
  have hr : roundToDouble (5204159569405906 / 18014398509481984) =
      .finite (5204159569405906 / 18014398509481984) := by
    simp only [roundToDouble, hn1, hd1, h1]
    norm_num
  have h2 : binary64_parts 351280770934898655 1125899906842624 =
      (5488762045857791, -44) := by decide
  have hn2 : (((1080 : Int) : ℚ) * (5204159569405906 / 18014398509481984)).num.natAbs =
      351280770934898655 := by norm_num
  have hd2 : (((1080 : Int) : ℚ) * (5204159569405906 / 18014398509481984)).den =
      1125899906842624 := by norm_num
  have hm : ∀ r : ℚ, roundToDouble r = .finite r →
      jsMul 1080 (.finite r) = roundToDouble (((1080 : Int) : ℚ) * r) := by
    intro r h
    simp only [jsMul, JSNumber.toDouble, h]
  rw [hm _ hr]
  simp only [roundToDouble, hn2, hd2, h2]
  norm_num

/-- Claim C7, as amended: adopting a window through `track_window` issues exactly one
move/resize request; its rectangle has the origin and the width of the work area of the
current monitor and, as height, the binary64 product of the work-area height and the
persisted ratio converted by `ToInt32`, the conversion the binding applies to the `int`
parameter.  The code rounds nothing itself: a product of magnitude below 2^31 is
truncated towards zero. -/
theorem track_window_initial_geometry (env : Env) (s : State) (win : WinId)
    (hgint : env.to_gint = toInt32)
    (hres : (is_dropdown_terminal_window (env.window win)).truthy = true)
    (hcur : s.current_window ≠ some win) :
    move_resize_requests (new_effects s (track_window env s win)) = 1 ∧
    (∀ e ∈ new_effects s (track_window env s win), move_resize_requests [e] = 1 →
      e = .move_resize_frame win true
        (env.getWorkAreaForMonitor env.currentMonitor_index).x
        (env.getWorkAreaForMonitor env.currentMonitor_index).y
        (env.getWorkAreaForMonitor env.currentMonitor_index).width
        (toInt32 (jsMul (env.getWorkAreaForMonitor env.currentMonitor_index).height
          s.window_height))) ∧
    ∀ p : ℚ,
      jsMul (env.getWorkAreaForMonitor env.currentMonitor_index).height s.window_height =
        .finite p →
      -2147483648 < p → p < 2147483648 →
      toInt32 (jsMul (env.getWorkAreaForMonitor env.currentMonitor_index).height
        s.window_height) = if 0 ≤ p then ⌊p⌋ else ⌈p⌉ := by
  rw [track_window_adopt env s win hres hcur, new_effects_of_trace _ _ _ rfl]
  refine ⟨by simp [move_resize_requests, adoption_effects], ?_, ?_⟩
  · intro e he hcount
    simp only [adoption_effects, List.mem_cons, List.mem_singleton, List.not_mem_nil,
      or_false] at he
    rcases he with h | h | h | h | h | h | h <;> subst h <;>
      first
      | (rw [hgint])
      | (simp [move_resize_requests] at hcount)
  · intro p hp h1 h2
    rw [hp]
    exact toInt32_finite p h1 h2

theorem track_window_initial_geometry_witness :
    move_resize_requests (new_effects (State.initial (.finite (1 / 2)))
      (track_window (sample_env 0) (State.initial (.finite (1 / 2))) 1)) = 1 ∧
    ∀ e ∈ new_effects (State.initial (.finite (1 / 2)))
        (track_window (sample_env 0) (State.initial (.finite (1 / 2))) 1),
      move_resize_requests [e] = 1 → e = .move_resize_frame 1 true 0 0 1920 540 := by
  have h := track_window_initial_geometry (sample_env 0) (State.initial (.finite (1 / 2))) 1
    rfl (by decide) (by decide)
  refine ⟨h.1, ?_⟩
  intro e he hc
  rw [h.2.1 e he hc]
  simp only [sample_env, State.initial]
  rw [toInt32_half_of_1080]

/-- Claim C7 fails as stated: the requested height is not the product of the work-area
height and the persisted ratio rounded to whole pixels, whichever rounding is meant.
On a work area 1080 high, with the ratio the double nearest to 3/10 the request is 324
high while the product rounds down to 323; with the ratio the double nearest to
312/1080 the request is 311 high while the product rounds to the nearest and rounds up
to 312. -/
theorem track_window_height_is_not_rounded_product :
    roundToDouble (3 / 10) = .finite (5404319552844595 / 18014398509481984) ∧
    Effect.move_resize_frame 1 true 0 0 1920 324 ∈
      new_effects (State.initial (.finite (5404319552844595 / 18014398509481984)))
        (track_window (sample_env 0)
          (State.initial (.finite (5404319552844595 / 18014398509481984))) 1) ∧
    ⌊(1080 : ℚ) * (5404319552844595 / 18014398509481984)⌋ = 323 ∧
    roundToDouble (312 / 1080) = .finite (5204159569405906 / 18014398509481984) ∧
    Effect.move_resize_frame 1 true 0 0 1920 311 ∈
      new_effects (State.initial (.finite (5204159569405906 / 18014398509481984)))
        (track_window (sample_env 0)
          (State.initial (.finite (5204159569405906 / 18014398509481984))) 1) ∧
    round ((1080 : ℚ) * (5204159569405906 / 18014398509481984)) = 312 ∧
    ⌈(1080 : ℚ) * (5204159569405906 / 18014398509481984)⌉ = 312 := by
  refine ⟨roundToDouble_three_tenths, ?_, ?_, roundToDouble_312_of_1080, ?_, ?_, ?_⟩
  · rw [track_window_adopt _ _ _ (by decide) (by decide), new_effects_of_trace _ _ _ rfl]
    simp only [adoption_effects, sample_env, State.initial]
    rw [jsMul_1080_three_tenths]
    simp [toInt32]
  · rw [Int.floor_eq_iff]
    norm_num
  · rw [track_window_adopt _ _ _ (by decide) (by decide), new_effects_of_trace _ _ _ rfl]
    simp only [adoption_effects, sample_env, State.initial]
    rw [jsMul_1080_312_of_1080]
    have h : toInt32 (.finite (5488762045857791 / 17592186044416)) = 311 := by
      rw [toInt32_finite _ (by norm_num) (by norm_num), if_pos (by norm_num),
        Int.floor_eq_iff]
      norm_num
    rw [h]
    simp
  · rw [round_eq, Int.floor_eq_iff]
    norm_num
  · rw [Int.ceil_eq_iff]
    norm_num

/-- Claim C8, as amended: when the frame height of the tracked window is positive and at
most the height of the work area of its monitor, the value `update_height_setting`
writes to `window-height` is the finite quotient of the two and lies in (0, 1]. -/
theorem update_height_setting_ratio_in_range (env : Env) (s : State) (win : WinId)
    (hcur : s.current_window = some win) (hmon : 0 ≤ (env.window win).monitor)
    (hpos : 0 < (env.window win).frame_rect.height)
    (hle : (env.window win).frame_rect.height ≤
      (env.getWorkAreaForMonitor (env.window win).monitor).height) :
    ∃ q : ℚ,
      new_effects s (update_height_setting env s win) =
        [.set_double "window-height" (.finite q)] ∧
      q = ((env.window win).frame_rect.height : ℚ) /
        ((env.getWorkAreaForMonitor (env.window win).monitor).height : ℚ) ∧
      0 < q ∧ q ≤ 1 := by
  rw [update_height_setting_write env s win hcur hmon, new_effects_of_trace _ _ _ rfl]
  have hH : 0 < (env.getWorkAreaForMonitor (env.window win).monitor).height :=
    lt_of_lt_of_le hpos hle
  have hHq : (0 : ℚ) < ((env.getWorkAreaForMonitor (env.window win).monitor).height : ℚ) := by
    exact_mod_cast hH
  have hhq : (0 : ℚ) < ((env.window win).frame_rect.height : ℚ) := by exact_mod_cast hpos
  have hleq : ((env.window win).frame_rect.height : ℚ) ≤
      ((env.getWorkAreaForMonitor (env.window win).monitor).height : ℚ) := by
    exact_mod_cast hle
  refine ⟨_, ?_, rfl, div_pos hhq hHq, (div_le_one hHq).mpr hleq⟩
  simp [jsDiv, ne_of_gt hH]

theorem update_height_setting_ratio_in_range_witness :
    ∃ q : ℚ,
      new_effects tracking_first (update_height_setting (sample_env 324) tracking_first 1) =
        [.set_double "window-height" (.finite q)] ∧
      q = ((324 : Int) : ℚ) / ((1080 : Int) : ℚ) ∧ 0 < q ∧ q ≤ 1 :=
  update_height_setting_ratio_in_range (sample_env 324) tracking_first 1 (by decide)
    (by decide) (by decide) (by decide)

/-- Claim C8 fails as stated: with a frame 1200 pixels high on a monitor whose work area
is 1080 pixels high, `update_height_setting` writes 10/9, which exceeds 1. -/
theorem update_height_setting_writes_above_one :
    tracking_first.current_window = some 1 ∧
    new_effects tracking_first (update_height_setting (sample_env 1200) tracking_first 1) =
      [.set_double "window-height" (.finite (10 / 9))] ∧
    ¬ ((10 : ℚ) / 9 ≤ 1) := by
  refine ⟨by decide, ?_, by norm_num⟩
  rw [update_height_setting_write _ _ _ (by decide) (by decide),
    new_effects_of_trace _ _ _ rfl]
  norm_num [jsDiv, sample_env, terminal_window]

/-! ## Teardown and toggle (C10, C9) -/

theorem stop_dbus_watch_eq (s : State) :
    stop_dbus_watch s =
      { s with bus_watch_id := none,
               trace := s.trace ++ (match s.bus_watch_id with
                 | some id => [Effect.bus_unwatch_name id]
                 | none => []) } := by
  unfold stop_dbus_watch
  cases h : s.bus_watch_id with
  | none => simp [← h]
  | some id => simp [State.log, Nat.pos_iff_ne_zero.mp id.pos]

theorem disconnect_created_handler_eq (s : State) :
    disconnect_created_handler s =
      { s with created_handler_id := none,
               trace := s.trace ++ (match s.created_handler_id with
                 | some id => [Effect.display_disconnect id]
                 | none => []) } := by
  unfold disconnect_created_handler
  cases h : s.created_handler_id with
  | none => simp [← h]
  | some id => simp [State.log, Nat.pos_iff_ne_zero.mp id.pos]

theorem dispose_action_group_eq (s : State) :
    dispose_action_group s =
      { s with dbus_action_group := none,
               trace := s.trace ++ (match s.dbus_action_group with
                 | some g => [Effect.run_dispose g]
                 | none => []) } := by
  unfold dispose_action_group
  cases h : s.dbus_action_group with
  | none => simp [← h]
  | some g => simp [State.log]

theorem disable_eq (env : Env) (s : State) :
    disable env s =
      { s with bus_watch_id := none, dbus_action_group := none, created_handler_id := none,
               trace := s.trace ++ disable_effects env s } := by
  unfold disable disable_effects
  simp only [stop_dbus_watch_eq, dispose_action_group_eq, disconnect_created_handler_eq]
  cases hg : s.dbus_action_group <;> cases hb : s.bus_watch_id <;>
    cases hc : s.created_handler_id <;> cases ha : env.allowExtensions <;>
    simp [State.log, hg, hb, hc]

theorem activations_quit_disable_effects (env : Env) (s : State) :
    activations "quit" (disable_effects env s) =
      if env.allowExtensions = true ∧ s.dbus_action_group.isSome = true then 1 else 0 := by
  unfold disable_effects activations
  cases hg : s.dbus_action_group <;> cases hb : s.bus_watch_id <;>
    cases hc : s.created_handler_id <;> cases ha : env.allowExtensions <;>
    simp

/-- Claim C10: `disable()` invokes the remote `quit` action once when the session mode
allows extensions and a handle is held, and never otherwise; a `quit` that is invoked
comes first, before the handle is disposed; afterwards no handle, no bus-watch id and no
window-created handler id is held, every one that was held has been disposed, unwatched
or disconnected, and the hotkey binding has been removed. -/
theorem disable_teardown (env : Env) (s : State) :
    activations "quit" (new_effects s (disable env s)) =
      (if env.allowExtensions = true ∧ s.dbus_action_group.isSome = true then 1 else 0) ∧
    (∀ g, env.allowExtensions = true → s.dbus_action_group = some g →
      ∃ mid rest, new_effects s (disable env s) =
          Effect.activate_action g "quit" none :: (mid ++ Effect.run_dispose g :: rest) ∧
        activations "quit" (mid ++ Effect.run_dispose g :: rest) = 0) ∧
    (disable env s).dbus_action_group = none ∧
    (disable env s).bus_watch_id = none ∧
    (disable env s).created_handler_id = none ∧
    (∀ g, s.dbus_action_group = some g →
      Effect.run_dispose g ∈ new_effects s (disable env s)) ∧
    (∀ id, s.bus_watch_id = some id →
      Effect.bus_unwatch_name id ∈ new_effects s (disable env s)) ∧
    (∀ id, s.created_handler_id = some id →
      Effect.display_disconnect id ∈ new_effects s (disable env s)) ∧
    (new_effects s (disable env s)).getLast? =
      some (Effect.removeKeybinding "ddterm-toggle-hotkey") ∧
    new_effects s (disable env s) = disable_effects env s := by
  rw [disable_eq, new_effects_of_trace _ _ _ rfl]
  refine ⟨activations_quit_disable_effects env s, ?_, rfl, rfl, rfl, ?_, ?_, ?_, ?_, rfl⟩
  · intro g ha hg
    refine ⟨match s.bus_watch_id with
        | some id => [Effect.bus_unwatch_name id]
        | none => [],
      (match s.created_handler_id with
        | some id => [Effect.display_disconnect id]
        | none => []) ++ [Effect.removeKeybinding "ddterm-toggle-hotkey"], ?_, ?_⟩
    · simp [disable_effects, ha, hg]
    · cases hb : s.bus_watch_id <;> cases hc : s.created_handler_id <;> simp [activations]
  · intro g hg
    simp [disable_effects, hg]
  · intro id hb
    simp [disable_effects, hb]
  · intro id hc
    simp [disable_effects, hc]
  · simp [disable_effects]

theorem disable_teardown_witness :
    (∃ mid rest, new_effects enabled_present (disable (sample_env 540) enabled_present) =
        Effect.activate_action ⟨2, 7, "com.github.amezin.ddterm", "/com/github/amezin/ddterm"⟩
          "quit" none ::
        (mid ++ Effect.run_dispose
          ⟨2, 7, "com.github.amezin.ddterm", "/com/github/amezin/ddterm"⟩ :: rest) ∧
      activations "quit" (mid ++ Effect.run_dispose
          ⟨2, 7, "com.github.amezin.ddterm", "/com/github/amezin/ddterm"⟩ :: rest) = 0) ∧
    Effect.bus_unwatch_name ⟨1, by decide⟩ ∈
      new_effects enabled_present (disable (sample_env 540) enabled_present) ∧
    Effect.display_disconnect ⟨2, by decide⟩ ∈
      new_effects enabled_present (disable (sample_env 540) enabled_present) :=
  have h := disable_teardown (sample_env 540) enabled_present
  ⟨h.2.1 _ (by decide) (by decide), h.2.2.2.2.2.2.1 _ (by decide),
    h.2.2.2.2.2.2.2.1 _ (by decide)⟩

theorem dispose_action_group_handle (s : State) :
    (dispose_action_group s).dbus_action_group = none := by
  rw [dispose_action_group_eq]

theorem dispose_action_group_next_id (s : State) :
    (dispose_action_group s).next_id = s.next_id := by
  rw [dispose_action_group_eq]

theorem dbus_appeared_handle (s : State) (connection : Nat) (name : String) :
    (dbus_appeared s connection name).dbus_action_group =
      some ⟨s.next_id, connection, name, APP_DBUS_PATH⟩ := by
  simp [dbus_appeared, dispose_action_group_next_id]

theorem dbus_appeared_last_effect (s : State) (connection : Nat) (name : String) :
    (dbus_appeared s connection name).trace.getLast? =
      some (Effect.action_group_get ⟨s.next_id, connection, name, APP_DBUS_PATH⟩) := by
  simp [dbus_appeared, dispose_action_group_next_id, State.log]

theorem run_bus_append (pre : List BusEvent) (e : BusEvent) (s : State) :
    run_bus (pre ++ [e]) s = e.run (run_bus pre s) := by
  simp [run_bus, List.foldl_append]

theorem toggle_present (env : Env) (s : State) (g : ActionGroup)
    (h : s.dbus_action_group = some g) :
    new_effects s (toggle env s) = [Effect.activate_action g "toggle" none] := by
  apply new_effects_of_trace
  simp [toggle, h, State.log]

theorem toggle_absent (env : Env) (s : State) (h : s.dbus_action_group = none) :
    new_effects s (toggle env s) =
      [Effect.spawn ["gjs", env.application_js_path, "--undecorated"]] := by
  apply new_effects_of_trace
  simp [toggle, h, State.log]

/-- Claim C9: after any sequence of bus notifications that ends with an appearance,
`toggle()` performs exactly one remote activation of `toggle` without parameter, on the
handle acquired at that appearance, and no spawn; after the empty sequence (no handle
held at the start) or a sequence that ends with a disappearance, it performs exactly one
spawn whose argument list ends with `--undecorated`, and no remote activation. -/
theorem toggle_dispatches_on_presence (env : Env) (s0 : State) (evs : List BusEvent) :
    (∀ pre connection name, evs = pre ++ [BusEvent.appeared connection name] →
      (run_bus evs s0).trace.getLast? = some (Effect.action_group_get
        ⟨(run_bus pre s0).next_id, connection, name, "/com/github/amezin/ddterm"⟩) ∧
      new_effects (run_bus evs s0) (toggle env (run_bus evs s0)) =
        [Effect.activate_action
          ⟨(run_bus pre s0).next_id, connection, name, "/com/github/amezin/ddterm"⟩
          "toggle" none] ∧
      activations "toggle" (new_effects (run_bus evs s0) (toggle env (run_bus evs s0))) = 1 ∧
      spawns (new_effects (run_bus evs s0) (toggle env (run_bus evs s0))) = 0) ∧
    (((evs = [] ∧ s0.dbus_action_group = none) ∨ ∃ pre, evs = pre ++ [BusEvent.disappeared]) →
      ∃ argv, new_effects (run_bus evs s0) (toggle env (run_bus evs s0)) = [Effect.spawn argv] ∧
        argv.getLast? = some "--undecorated" ∧
        spawns (new_effects (run_bus evs s0) (toggle env (run_bus evs s0))) = 1 ∧
        ∀ action, activations action
          (new_effects (run_bus evs s0) (toggle env (run_bus evs s0))) = 0) := by
  constructor
  · intro pre connection name hevs
    subst hevs
    have hg := dbus_appeared_handle (run_bus pre s0) connection name
    have hl := dbus_appeared_last_effect (run_bus pre s0) connection name
    rw [run_bus_append]
    simp only [BusEvent.run]
    rw [toggle_present env _ _ hg]
    exact ⟨hl, rfl, by simp [activations], by simp [spawns]⟩
  · intro h
    have hnone : (run_bus evs s0).dbus_action_group = none := by
      rcases h with ⟨he, h0⟩ | ⟨pre, he⟩
      · subst he
        simpa [run_bus] using h0
      · subst he
        rw [run_bus_append]
        exact dispose_action_group_handle _
    rw [toggle_absent env _ hnone]
    exact ⟨_, rfl, by simp, by simp [spawns], fun action => by simp [activations]⟩

theorem toggle_dispatches_on_presence_witness :
    new_effects
        (run_bus [.appeared 7 "com.github.amezin.ddterm", .disappeared,
          .appeared 8 "com.github.amezin.ddterm"] (State.initial (.finite (1 / 2))))
        (toggle (sample_env 540)
          (run_bus [.appeared 7 "com.github.amezin.ddterm", .disappeared,
            .appeared 8 "com.github.amezin.ddterm"] (State.initial (.finite (1 / 2))))) =
      [Effect.activate_action ⟨1, 8, "com.github.amezin.ddterm", "/com/github/amezin/ddterm"⟩
        "toggle" none] ∧
    ∃ argv, new_effects (run_bus [] (State.initial (.finite (1 / 2))))
        (toggle (sample_env 540) (run_bus [] (State.initial (.finite (1 / 2))))) =
          [Effect.spawn argv] ∧
      argv.getLast? = some "--undecorated" ∧
      spawns (new_effects (run_bus [] (State.initial (.finite (1 / 2))))
        (toggle (sample_env 540) (run_bus [] (State.initial (.finite (1 / 2)))))) = 1 ∧
      ∀ action, activations action (new_effects (run_bus [] (State.initial (.finite (1 / 2))))
        (toggle (sample_env 540) (run_bus [] (State.initial (.finite (1 / 2)))))) = 0 :=
  ⟨((toggle_dispatches_on_presence (sample_env 540) (State.initial (.finite (1 / 2)))
      [.appeared 7 "com.github.amezin.ddterm", .disappeared,
        .appeared 8 "com.github.amezin.ddterm"]).1
      [.appeared 7 "com.github.amezin.ddterm", .disappeared] 8 "com.github.amezin.ddterm"
      rfl).2.1,
    (toggle_dispatches_on_presence (sample_env 540) (State.initial (.finite (1 / 2))) []).2
      (Or.inl ⟨rfl, rfl⟩)⟩

/-! ## Bursts of size-changed notifications (C3) -/

theorem emit_size_changed_single (env : Env) (s : State) (win : WinId)
    (hh : handlers_of s win .size_changed = [.update_height_setting]) :
    emit_signal env s win .size_changed = update_height_setting env s win := by
  simp [emit_signal, hh, call_handler]

theorem size_changed_burst_trace (win : WinId) (envs : List Env) (s : State)
    (hcur : s.current_window = some win)
    (hh : handlers_of s win .size_changed = [.update_height_setting])
    (hmon : ∀ env ∈ envs, 0 ≤ (env.window win).monitor) :
    (size_changed_burst envs s win).trace =
      s.trace ++ envs.map (fun env => Effect.set_double "window-height" (height_ratio_of env win)) := by
  induction envs generalizing s with
  | nil => simp [size_changed_burst]
  | cons env rest ih =>
    have hm : 0 ≤ (env.window win).monitor := hmon env (List.mem_cons_self _ _)
    have hstep : emit_signal env s win .size_changed = update_height_setting env s win :=
      emit_size_changed_single env s win hh
    have hw := update_height_setting_write env s win hcur hm
    have hrest := ih (update_height_setting env s win)
      (by rw [hw]; exact hcur)
      (by rw [hw]; exact hh)
      (fun e he => hmon e (List.mem_cons_of_mem _ he))
    unfold size_changed_burst at hrest ⊢
    rw [List.foldl_cons, hstep, hrest, hw]
    simp [height_ratio_of]

theorem height_writes_map (win : WinId) (envs : List Env) :
    height_writes (envs.map (fun env =>
      Effect.set_double "window-height" (height_ratio_of env win))) = envs.length := by
  induction envs with
  | nil => rfl
  | cons env rest ih =>
    unfold height_writes at ih ⊢
    rw [List.map_cons, List.countP_cons, ih]
    simp

/-- Claim C3, as amended: every `size-changed` notification delivered to the tracked
window while its monitor index is at least 0 writes `window-height` at once, so a burst
of K notifications produces exactly K writes, the i-th being the ratio observed at the
i-th notification; nothing is deferred to the end of the burst. -/
theorem size_changed_burst_writes_every_event (win : WinId) (envs : List Env) (s : State)
    (hcur : s.current_window = some win)
    (hh : handlers_of s win .size_changed = [.update_height_setting])
    (hmon : ∀ env ∈ envs, 0 ≤ (env.window win).monitor) :
    new_effects s (size_changed_burst envs s win) =
      envs.map (fun env => Effect.set_double "window-height" (height_ratio_of env win)) ∧
    height_writes (new_effects s (size_changed_burst envs s win)) = envs.length := by
  have h := new_effects_of_trace _ _ _ (size_changed_burst_trace win envs s hcur hh hmon)
  rw [h]
  exact ⟨rfl, height_writes_map win envs⟩

theorem size_changed_burst_writes_every_event_witness :
    height_writes (new_effects tracking_first
      (size_changed_burst [sample_env 324, sample_env 432, sample_env 540] tracking_first 1))
      = 3 :=
  (size_changed_burst_writes_every_event 1 [sample_env 324, sample_env 432, sample_env 540]
    tracking_first (by decide) (by decide) (by decide)).2

/-- Claim C3 fails as stated: a burst of two `size-changed` notifications on the tracked
window writes `window-height` twice, the first time already on the first, intermediate
notification. -/
theorem size_changed_burst_of_two_writes_twice :
    tracking_first.current_window = some 1 ∧
    new_effects tracking_first (size_changed_burst [sample_env 324] tracking_first 1) =
      [Effect.set_double "window-height" (.finite (3 / 10))] ∧
    new_effects tracking_first
      (size_changed_burst [sample_env 324, sample_env 432] tracking_first 1) =
      [Effect.set_double "window-height" (.finite (3 / 10)),
       Effect.set_double "window-height" (.finite (2 / 5))] ∧
    height_writes (new_effects tracking_first
      (size_changed_burst [sample_env 324, sample_env 432] tracking_first 1)) = 2 := by
  have h1 := new_effects_of_trace _ _ _
    (size_changed_burst_trace 1 [sample_env 324] tracking_first (by decide) (by decide)
      (by decide))
  have h2 := new_effects_of_trace _ _ _
    (size_changed_burst_trace 1 [sample_env 324, sample_env 432] tracking_first (by decide)
      (by decide) (by decide))
  refine ⟨by decide, ?_, ?_, ?_⟩
  · rw [h1]
    norm_num [height_ratio_of, jsDiv, sample_env, terminal_window]
  · rw [h2]
    norm_num [height_ratio_of, jsDiv, sample_env, terminal_window]
  · rw [h2]
    exact height_writes_map 1 _

/-! ## Settle wait (C4) -/

theorem wait_window_settle_armed (start timeout : Nat) :
    Armed timeout start (wait_window_settle start timeout) := by
  refine ⟨rfl, rfl, rfl, 1, rfl, rfl⟩

theorem advance_armed_early (timeout now t : Nat) (s : SettleState)
    (h : Armed timeout now s) (ht : t < now + timeout) :
    advance t s = { s with now := max s.now t } := by
  obtain ⟨_, _, _, id, _, hsrc⟩ := h
  simp [advance, hsrc, not_le.mpr ht]

theorem advance_armed_due (timeout now t : Nat) (s : SettleState)
    (h : Armed timeout now s) (ht : now + timeout ≤ t) :
    (advance t s).resolved = [now + timeout] ∧ Settled (advance t s) := by
  obtain ⟨_, hres, _, id, _, hsrc⟩ := h
  simp [advance, hsrc, ht, ready, hres, Settled, ConnectionSet.disconnect]

theorem deliver_armed (timeout now t : Nat) (src : SettleSource) (s : SettleState)
    (h : Armed timeout now s) (h1 : now ≤ t) (h2 : t < now + timeout) :
    Armed timeout t (deliver timeout src t s) := by
  have hadv := advance_armed_early timeout now t s h h2
  obtain ⟨hnow, hres, hconn, id, htid, hsrc⟩ := h
  unfold deliver
  rw [hadv]
  simp only [hconn]
  have hone : settle_sources.filter (fun c => decide (c = src)) = [src] := by
    cases src <;> decide
  rw [hone]
  simp only [List.foldl_cons, List.foldl_nil]
  refine ⟨?_, ?_, ?_, ?_⟩
  · simp [restart_timer, htid, hnow, h1]
  · simp [restart_timer, htid, hres]
  · simp [restart_timer, htid, hconn]
  · refine ⟨s.next_source, ?_, ?_⟩
    · simp [restart_timer, htid]
    · simp [restart_timer, htid, hsrc, hnow, h1]

theorem run_events_armed (timeout : Nat) (evs : List (SettleSource × Nat)) (now : Nat)
    (s : SettleState) (h : Armed timeout now s)
    (hgaps : List.Chain (fun a b => a ≤ b ∧ b < a + timeout) now (evs.map (·.2))) :
    Armed timeout (last_time now evs) (run_events timeout evs s) := by
  induction evs generalizing now s with
  | nil => simpa [run_events, last_time] using h
  | cons e rest ih =>
    rw [List.map_cons, List.chain_cons] at hgaps
    have hstep := deliver_armed timeout now e.2 e.1 s h hgaps.1.1 hgaps.1.2
    have := ih e.2 (deliver timeout e.1 e.2 s) hstep hgaps.2
    simpa [run_events, last_time] using this

theorem advance_settled (t : Nat) (s : SettleState) (h : Settled s) :
    (advance t s).resolved = s.resolved ∧ Settled (advance t s) := by
  obtain ⟨hc, hs⟩ := h
  simp [advance, hs, hc, Settled]

theorem deliver_settled (timeout : Nat) (src : SettleSource) (t : Nat) (s : SettleState)
    (h : Settled s) :
    (deliver timeout src t s).resolved = s.resolved ∧ Settled (deliver timeout src t s) := by
  have ha := advance_settled t s h
  unfold deliver
  have hc : (advance t s).handlers.connections = [] := ha.2.1
  simp only [hc, List.filter_nil, List.foldl_nil]
  exact ha

theorem run_steps_settled (timeout : Nat) (steps : List SettleStep) (s : SettleState)
    (h : Settled s) :
    (run_steps timeout steps s).resolved = s.resolved ∧ Settled (run_steps timeout steps s) := by
  induction steps generalizing s with
  | nil => exact ⟨rfl, h⟩
  | cons step rest ih =>
    have hstep : (step.run timeout s).resolved = s.resolved ∧ Settled (step.run timeout s) := by
      cases step with
      | event src t => exact deliver_settled timeout src t s h
      | tick t => exact advance_settled t s h
    have := ih (step.run timeout s) hstep.2
    unfold run_steps at this ⊢
    rw [List.foldl_cons]
    exact ⟨this.1.trans hstep.1, this.2⟩

/-- Claim C4: for every timeout and every burst of K events (K may be 0) whose gaps,
the one from the start of the wait to the first event included, are all shorter than
the timeout, `wait_window_settle` has not resolved at any time before the last event
(the start, for K = 0) plus the timeout, and from that time on it has resolved exactly
once, at that time, whatever K is; at resolution every handler is disconnected and no timer is pending,
and whatever events or time steps follow, no further resolution happens and no timer is
started. -/
theorem wait_window_settle_resolves_once (timeout start : Nat)
    (evs : List (SettleSource × Nat))
    (hgaps : List.Chain (fun a b => a ≤ b ∧ b < a + timeout) start (evs.map (·.2))) :
    (∀ t, t < last_time start evs + timeout →
      (advance t (run_events timeout evs (wait_window_settle start timeout))).resolved = []) ∧
    (∀ t, last_time start evs + timeout ≤ t →
      (advance t (run_events timeout evs (wait_window_settle start timeout))).resolved =
        [last_time start evs + timeout] ∧
      (advance t (run_events timeout evs
        (wait_window_settle start timeout))).handlers.connections = [] ∧
      (advance t (run_events timeout evs (wait_window_settle start timeout))).sources = [] ∧
      ∀ post : List SettleStep,
        (run_steps timeout post (advance t (run_events timeout evs
          (wait_window_settle start timeout)))).resolved = [last_time start evs + timeout] ∧
        (run_steps timeout post (advance t (run_events timeout evs
          (wait_window_settle start timeout)))).sources = []) := by
  have harmed := run_events_armed timeout evs start _ (wait_window_settle_armed start timeout)
    hgaps
  constructor
  · intro t ht
    rw [advance_armed_early timeout _ t _ harmed ht]
    exact harmed.2.1
  · intro t ht
    have hdue := advance_armed_due timeout _ t _ harmed ht
    refine ⟨hdue.1, hdue.2.1, hdue.2.2, ?_⟩
    intro post
    have hpost := run_steps_settled timeout post _ hdue.2
    exact ⟨hpost.1.trans hdue.1, hpost.2.2⟩

theorem wait_window_settle_resolves_once_witness :
    (advance 549 (run_events 200 [(.size_changed, 100), (.position_changed, 250),
      (.size_changed, 350)] (wait_window_settle 0 200))).resolved = [] ∧
    (advance 550 (run_events 200 [(.size_changed, 100), (.position_changed, 250),
      (.size_changed, 350)] (wait_window_settle 0 200))).resolved = [550] ∧
    (run_steps 200 [.event .size_changed 600, .tick 1000]
      (advance 550 (run_events 200 [(.size_changed, 100), (.position_changed, 250),
        (.size_changed, 350)] (wait_window_settle 0 200)))).resolved = [550] := by
  have h := wait_window_settle_resolves_once 200 0
    [(.size_changed, 100), (.position_changed, 250), (.size_changed, 350)] (by simp)
  exact ⟨h.1 549 (by decide), (h.2 550 (by decide)).1,
    ((h.2 550 (by decide)).2.2.2 [.event .size_changed 600, .tick 1000]).1⟩

/-! ## Tracked window and identity (C11) -/

theorem track_window_current_window (env : Env) (s : State) (win : WinId) :
    (track_window env s win).current_window = s.current_window ∨
    ((track_window env s win).current_window = some win ∧
      (is_dropdown_terminal_window (env.window win)).truthy = true) := by
  by_cases hres : (is_dropdown_terminal_window (env.window win)).truthy = true
  · by_cases hcur : s.current_window = some win
    · left
      rw [track_window_current env s win hcur]
    · right
      rw [track_window_adopt env s win hres hcur]
      exact ⟨rfl, hres⟩
  · left
    rw [track_window_not_resolved env s win (by simpa using hres)]

theorem update_height_setting_current_window (env : Env) (s : State) (win : WinId) :
    (update_height_setting env s win).current_window = s.current_window := by
  by_cases h : s.current_window = some win ∧ 0 ≤ (env.window win).monitor
  · rw [update_height_setting_write env s win h.1 h.2]
  · rw [update_height_setting_skip env s win h]

theorem call_handler_tracked_resolves (env : Env) (s : State) (win : WinId) (h : Handler)
    (hinv : tracked_resolves (env, s)) :
    tracked_resolves (env, call_handler env s win h) := by
  intro w hw
  cases h with
  | track_window =>
    rcases track_window_current_window env s win with hsame | ⟨hnew, hres⟩
    · exact hinv w (hsame ▸ hw)
    · have hw' : (track_window env s win).current_window = some w := hw
      rw [hnew] at hw'
      cases hw'
      exact hres
  | untrack_window =>
    have hw' : (untrack_window s win).current_window = some w := hw
    unfold untrack_window at hw'
    split at hw'
    · cases hw'
    · exact hinv w hw'
  | update_height_setting =>
    have hw' : (update_height_setting env s win).current_window = some w := hw
    rw [update_height_setting_current_window] at hw'
    exact hinv w hw'

theorem foldl_call_handler_tracked_resolves (env : Env) (win : WinId) (hs : List Handler)
    (s : State) (hinv : tracked_resolves (env, s)) :
    tracked_resolves (env, hs.foldl (fun st h => call_handler env st win h) s) := by
  induction hs generalizing s with
  | nil => exact hinv
  | cons h rest ih =>
    rw [List.foldl_cons]
    exact ih _ (call_handler_tracked_resolves env s win h hinv)

theorem emit_signal_tracked_resolves (env : Env) (s : State) (win : WinId) (signal : Signal)
    (hinv : tracked_resolves (env, s)) :
    tracked_resolves (env, emit_signal env s win signal) :=
  foldl_call_handler_tracked_resolves env win _ s hinv

theorem handle_created_tracked_resolves (env : Env) (s : State) (win : WinId)
    (hinv : tracked_resolves (env, s)) :
    tracked_resolves (env, handle_created env s win) := by
  unfold handle_created
  exact call_handler_tracked_resolves env _ win .track_window hinv

theorem apply_window_other (env : Env) (win w : WinId) (change : IdentityChange)
    (h : w ≠ win) : (change.apply env win).window w = env.window w := by
  cases change <;> simp [IdentityChange.apply, h]

theorem window_event_tracked_resolves (sys : Env × State) (ev : WindowEvent)
    (hinv : tracked_resolves sys) (hkeep : keeps_current_identity sys ev) :
    tracked_resolves (ev.run sys) := by
  obtain ⟨env, s⟩ := sys
  cases ev with
  | created win => exact handle_created_tracked_resolves env s win hinv
  | identity_changed win change =>
    apply emit_signal_tracked_resolves
    intro w hw
    by_cases hwin : w = win
    · subst hwin
      exact hkeep hw
    · have := hinv w hw
      simpa [apply_window_other env win w change hwin] using this
  | unmanaging win => exact emit_signal_tracked_resolves env s win _ hinv
  | unmanaged win => exact emit_signal_tracked_resolves env s win _ hinv

theorem run_window_events_tracked_resolves (evs : List WindowEvent) (sys : Env × State)
    (hinv : tracked_resolves sys) (hkeep : all_keep_current_identity sys evs) :
    tracked_resolves (run_window_events evs sys) := by
  induction evs generalizing sys with
  | nil => exact hinv
  | cons ev rest ih =>
    unfold run_window_events at ih ⊢
    rw [List.foldl_cons]
    exact ih _ (window_event_tracked_resolves sys ev hinv hkeep.1) hkeep.2

theorem resolves_attributes (win : Window)
    (h : (is_dropdown_terminal_window win).truthy = true) :
    win.gtk_application_id = some "com.github.amezin.ddterm" ∧
    ∃ path, win.gtk_window_object_path = some path ∧
      startsWith path "/com/github/amezin/ddterm/window/" = true := by
  unfold is_dropdown_terminal_window at h
  rw [window_path_prefix_eq, app_id_eq] at h
  by_cases hid : win.gtk_application_id = some "com.github.amezin.ddterm"
  · rw [if_pos hid] at h
    refine ⟨hid, ?_⟩
    cases hpath : win.gtk_window_object_path with
    | none => simp [hpath, JSValue.truthy] at h
    | some p =>
      by_cases hp : p = ""
      · simp [hpath, hp, JSValue.truthy] at h
      · exact ⟨p, rfl, by simpa [hpath, hp, JSValue.truthy] using h⟩
  · rw [if_neg hid] at h
    simp [JSValue.truthy] at h

/-- Claim C11, as amended: in every state reachable from the initial state by
window-created, identity-attribute-changed, unmanaging and unmanaged events of which no
identity change takes the identity away from the window that is current when it arrives,
a non-empty `current_window` satisfies `is_dropdown_terminal_window`: its application id
is the expected identifier and its object path starts with the expected prefix. -/
theorem tracked_implies_resolved (env : Env) (r : JSNumber) (evs : List WindowEvent)
    (hkeep : all_keep_current_identity (env, State.initial r) evs) (win : WinId)
    (hcur : (run_window_events evs (env, State.initial r)).2.current_window = some win) :
    (is_dropdown_terminal_window
      ((run_window_events evs (env, State.initial r)).1.window win)).truthy = true ∧
    ((run_window_events evs (env, State.initial r)).1.window win).gtk_application_id =
      some "com.github.amezin.ddterm" ∧
    ∃ path,
      ((run_window_events evs (env, State.initial r)).1.window win).gtk_window_object_path =
        some path ∧
      startsWith path "/com/github/amezin/ddterm/window/" = true := by
  have hinit : tracked_resolves (env, State.initial r) := by
    intro w hw
    cases hw
  have h := run_window_events_tracked_resolves evs _ hinit hkeep win hcur
  exact ⟨h, resolves_attributes _ h⟩

theorem tracked_implies_resolved_witness :
    (is_dropdown_terminal_window
      ((run_window_events
        [.created 1, .identity_changed 1 (.gtk_window_object_path
          (some "/com/github/amezin/ddterm/window/3")), .unmanaging 2]
        (sample_env 540, State.initial (.finite (1 / 2)))).1.window 1)).truthy = true :=
  (tracked_implies_resolved (sample_env 540) (.finite (1 / 2))
    [.created 1, .identity_changed 1 (.gtk_window_object_path
      (some "/com/github/amezin/ddterm/window/3")), .unmanaging 2]
    ⟨trivial, fun _ => by decide, trivial, trivial⟩ 1 (by decide)).1

/-- Claim C11 fails as stated: window 1 is created resolving and adopted, then its
application id is cleared; `track_window` runs for the change and returns early, so
window 1 stays the current window although it no longer resolves. -/
theorem current_window_stops_resolving :
    (run_window_events [.created 1, .identity_changed 1 (.gtk_application_id none)]
      (sample_env 540, State.initial (.finite (1 / 2)))).2.current_window = some 1 ∧
    (is_dropdown_terminal_window
      ((run_window_events [.created 1, .identity_changed 1 (.gtk_application_id none)]
        (sample_env 540, State.initial (.finite (1 / 2)))).1.window 1)).truthy = false := by
  constructor <;> decide

/-! ## Identity stability (C12) -/

theorem handle_created_eq (env : Env) (s : State) (win : WinId) :
    handle_created env s win = track_window env (created_state s win) win := rfl

theorem created_state_trace (s : State) (win : WinId) :
    (created_state s win).trace = s.trace ++ created_effects win := by
  simp [created_state, State.connect, created_effects]

theorem created_state_handlers (s : State) (win : WinId) (change : IdentityChange)
    (hfresh : ∀ c ∈ s.connections, c.win ≠ win) :
    handlers_of (created_state s win) win change.signal = [.track_window] := by
  have h0 : s.connections.filter (fun c => decide (c.win = win ∧ c.signal = change.signal))
      = [] := by
    rw [List.filter_eq_nil_iff]
    intro c hc
    simp [hfresh c hc]
  cases change <;>
    simp [handlers_of, created_state, State.connect, IdentityChange.signal,
      List.filter_append, List.filter_cons] <;>
    simpa [IdentityChange.signal] using h0

theorem handlers_of_adopt (env : Env) (s : State) (win : WinId) (change : IdentityChange)
    (hres : (is_dropdown_terminal_window (env.window win)).truthy = true)
    (hcur : s.current_window ≠ some win) :
    handlers_of (track_window env s win) win change.signal =
      handlers_of s win change.signal := by
  rw [track_window_adopt env s win hres hcur]
  cases change <;>
    simp [handlers_of, adoption_connections, IdentityChange.signal, List.filter_append,
      List.filter_cons]

theorem identity_changed_single (win : WinId) (env : Env) (s : State)
    (change : IdentityChange)
    (hh : handlers_of s win change.signal = [.track_window]) :
    identity_changed win (env, s) change =
      (change.apply env win, track_window (change.apply env win) s win) := by
  simp [identity_changed, emit_signal, hh, call_handler]

/-- Once `win` is the current window, no identity change of `win` changes the state. -/
theorem run_identity_changes_adopted (win : WinId) (changes : List IdentityChange)
    (env : Env) (s : State) (hcur : s.current_window = some win)
    (hh : ∀ change : IdentityChange, handlers_of s win change.signal = [.track_window]) :
    (run_identity_changes win changes (env, s)).2 = s := by
  induction changes generalizing env with
  | nil => rfl
  | cons change rest ih =>
    unfold run_identity_changes at ih ⊢
    rw [List.foldl_cons, identity_changed_single win env s change (hh change),
      track_window_current _ s win hcur]
    exact ih _

theorem run_identity_changes_append (win : WinId) (l : List IdentityChange)
    (change : IdentityChange) (sys : Env × State) :
    run_identity_changes win (l ++ [change]) sys =
      identity_changed win (run_identity_changes win l sys) change := by
  simp [run_identity_changes, List.foldl_append]

theorem run_identity_changes_append_list (win : WinId) (l l' : List IdentityChange)
    (sys : Env × State) :
    run_identity_changes win (l ++ l') sys =
      run_identity_changes win l' (run_identity_changes win l sys) := by
  simp [run_identity_changes, List.foldl_append]

/-- While `win` has not resolved at its creation or after any change so far, the state
is the one `handle_created` reached before calling `track_window`. -/
theorem run_identity_changes_pending (win : WinId) (env : Env) (s : State)
    (hfresh : ∀ c ∈ s.connections, c.win ≠ win)
    (l : List IdentityChange)
    (hnot : ∀ q, q <+: l → (is_dropdown_terminal_window
      ((run_identity_changes win q (env, handle_created env s win)).1.window win)).truthy
        = false) :
    (run_identity_changes win l (env, handle_created env s win)).2 = created_state s win := by
  induction l using List.reverseRecOn with
  | nil =>
    have h := hnot [] (List.prefix_refl _)
    show handle_created env s win = _
    rw [handle_created_eq]
    exact track_window_not_resolved env _ win h
  | append_singleton l change ih =>
    have hl := ih (fun q hq => hnot q (hq.trans (List.prefix_append l [change])))
    have hlast := hnot (l ++ [change]) (List.prefix_refl _)
    rw [run_identity_changes_append] at hlast ⊢
    have hsys : run_identity_changes win l (env, handle_created env s win) =
        ((run_identity_changes win l (env, handle_created env s win)).1,
          created_state s win) := by
      rw [← hl]
    rw [hsys] at hlast ⊢
    rw [identity_changed_single win _ _ change
      (created_state_handlers s win change hfresh)] at hlast ⊢
    exact track_window_not_resolved _ _ win hlast

theorem prefix_of_strict_prefix {α : Type} {q l first : List α} (hq : q <+: l)
    (hl : l <+: first) (hne : l ≠ first) : q <+: first ∧ q ≠ first := by
  refine ⟨hq.trans hl, ?_⟩
  intro h
  subst h
  exact hne (List.IsPrefix.eq_of_length_le hl hq.length_le)

/-- At the first point at which `win` can resolve, the state is what `track_window`
makes of the state `handle_created` reached before calling it. -/
theorem run_identity_changes_first (win : WinId) (env : Env) (s : State)
    (hfresh : ∀ c ∈ s.connections, c.win ≠ win) (first : List IdentityChange)
    (hbefore : ∀ q, q <+: first → q ≠ first → (is_dropdown_terminal_window
      ((run_identity_changes win q (env, handle_created env s win)).1.window win)).truthy
        = false) :
    (run_identity_changes win first (env, handle_created env s win)).2 =
      track_window (run_identity_changes win first (env, handle_created env s win)).1
        (created_state s win) win := by
  rcases List.eq_nil_or_concat first with h | ⟨l, change, h⟩
  · subst h
    rfl
  · rw [List.concat_eq_append] at h
    subst h
    have hstrict : l <+: l ++ [change] ∧ l ≠ l ++ [change] :=
      ⟨List.prefix_append l [change], by simp⟩
    have hl := run_identity_changes_pending win env s hfresh l
      (fun q hq => by
        have := prefix_of_strict_prefix hq hstrict.1 hstrict.2
        exact hbefore q this.1 this.2)
    rw [run_identity_changes_append]
    have hsys : run_identity_changes win l (env, handle_created env s win) =
        ((run_identity_changes win l (env, handle_created env s win)).1,
          created_state s win) := by
      rw [← hl]
    rw [hsys, identity_changed_single win _ _ change
      (created_state_handlers s win change hfresh)]

/-- Claim C12: starting with no tracked window, let a new window be created and its two
identity attributes then change any number of times, `first` being the changes up to
the first point (its creation when `first` is empty) at which the window resolves.
Before that point only the two `notify` connections have been made; at that point the
adoption effects are performed, once; and whatever changes follow leave the state as it
is, so that the whole sequence contains exactly one adoption. -/
theorem identity_stability (env : Env) (s : State) (win : WinId)
    (first later : List IdentityChange)
    (hnone : s.current_window = none)
    (hfresh : ∀ c ∈ s.connections, c.win ≠ win)
    (hbefore : ∀ q, q <+: first → q ≠ first → (is_dropdown_terminal_window
      ((run_identity_changes win q (env, handle_created env s win)).1.window win)).truthy
        = false)
    (hres : (is_dropdown_terminal_window
      ((run_identity_changes win first (env, handle_created env s win)).1.window win)).truthy
        = true) :
    (∀ q, q <+: first → q ≠ first →
      new_effects s (run_identity_changes win q (env, handle_created env s win)).2 =
        created_effects win ∧
      (run_identity_changes win q (env, handle_created env s win)).2.current_window = none) ∧
    new_effects s (run_identity_changes win first (env, handle_created env s win)).2 =
      created_effects win ++ adoption_effects
        (run_identity_changes win first (env, handle_created env s win)).1
        s.window_height win ∧
    (run_identity_changes win first (env, handle_created env s win)).2.current_window =
      some win ∧
    (run_identity_changes win (first ++ later) (env, handle_created env s win)).2 =
      (run_identity_changes win first (env, handle_created env s win)).2 ∧
    move_resize_requests (new_effects s
      (run_identity_changes win (first ++ later) (env, handle_created env s win)).2) = 1 := by
  have hcs : (created_state s win).current_window ≠ some win := by
    show s.current_window ≠ some win
    rw [hnone]
    simp
  have hfirst := run_identity_changes_first win env s hfresh first hbefore
  have hadopt := track_window_adopt _ (created_state s win) win hres hcs
  have htrace : new_effects s
      (run_identity_changes win first (env, handle_created env s win)).2 =
      created_effects win ++ adoption_effects
        (run_identity_changes win first (env, handle_created env s win)).1
        s.window_height win := by
    apply new_effects_of_trace
    rw [hfirst, hadopt]
    show (created_state s win).trace ++ _ = _
    rw [created_state_trace, List.append_assoc]
    rfl
  have hlater : (run_identity_changes win (first ++ later)
      (env, handle_created env s win)).2 =
      (run_identity_changes win first (env, handle_created env s win)).2 := by
    have hcur : (run_identity_changes win first
        (env, handle_created env s win)).2.current_window = some win := by
      rw [hfirst, hadopt]
    have hh : ∀ change : IdentityChange, handlers_of
        (run_identity_changes win first (env, handle_created env s win)).2 win
        change.signal = [.track_window] := by
      intro change
      rw [hfirst, handlers_of_adopt _ _ win change hres hcs]
      exact created_state_handlers s win change hfresh
    rw [run_identity_changes_append_list]
    exact run_identity_changes_adopted win later
      (run_identity_changes win first (env, handle_created env s win)).1
      (run_identity_changes win first (env, handle_created env s win)).2 hcur hh
  refine ⟨?_, htrace, ?_, hlater, ?_⟩
  · intro q hq hne
    have hq' := run_identity_changes_pending win env s hfresh q
      (fun p hp => by
        have := prefix_of_strict_prefix hp hq hne
        exact hbefore p this.1 this.2)
    rw [hq']
    exact ⟨new_effects_of_trace _ _ _ (created_state_trace s win), hnone⟩
  · rw [hfirst, hadopt]
  · rw [hlater, htrace]
    simp [move_resize_requests, created_effects, adoption_effects]

theorem identity_stability_witness :
    (run_identity_changes 1
      ([.gtk_application_id (some "com.github.amezin.ddterm"),
        .gtk_window_object_path (some "/com/github/amezin/ddterm/window/1")] ++
       [.gtk_window_object_path none,
        .gtk_window_object_path (some "/com/github/amezin/ddterm/window/1")])
      (blank_env, handle_created blank_env (State.initial (.finite (1 / 2))) 1)).2 =
    (run_identity_changes 1
      [.gtk_application_id (some "com.github.amezin.ddterm"),
        .gtk_window_object_path (some "/com/github/amezin/ddterm/window/1")]
      (blank_env, handle_created blank_env (State.initial (.finite (1 / 2))) 1)).2 ∧
    move_resize_requests (new_effects (State.initial (.finite (1 / 2)))
      (run_identity_changes 1
        ([.gtk_application_id (some "com.github.amezin.ddterm"),
          .gtk_window_object_path (some "/com/github/amezin/ddterm/window/1")] ++
         [.gtk_window_object_path none,
          .gtk_window_object_path (some "/com/github/amezin/ddterm/window/1")])
        (blank_env, handle_created blank_env (State.initial (.finite (1 / 2))) 1)).2) = 1 :=
  (identity_stability blank_env (State.initial (.finite (1 / 2))) 1
    [.gtk_application_id (some "com.github.amezin.ddterm"),
      .gtk_window_object_path (some "/com/github/amezin/ddterm/window/1")]
    [.gtk_window_object_path none,
      .gtk_window_object_path (some "/com/github/amezin/ddterm/window/1")]
    rfl (by simp [State.initial])
    (by
      intro q hq hne
      rw [← List.mem_inits] at hq
      simp only [List.inits, List.mem_cons, List.mem_singleton, List.map_cons, List.map_nil,
        List.not_mem_nil, or_false] at hq
      rcases hq with h | h | h
      · subst h; decide
      · subst h; decide
      · exact absurd h hne)
    (by decide)).2.2.2

/-! ## Action-group handles (C13) -/

theorem live_handles_append (t l : List Effect) :
    live_handles (t ++ l) = l.foldl live_step (live_handles t) := by
  simp [live_handles, List.foldl_append]

theorem disposed_handles_append (t l : List Effect) :
    disposed_handles (t ++ l) = disposed_handles t ++ disposed_handles l := by
  simp [disposed_handles, List.filterMap_append]

theorem foldl_live_step_neutral (l : List Effect) (live : List ActionGroup)
    (hl : ∀ e ∈ l, handle_neutral e = true) : l.foldl live_step live = live := by
  induction l generalizing live with
  | nil => rfl
  | cons e rest ih =>
    have he := hl e (List.mem_cons_self _ _)
    have hstep : live_step live e = live := by
      cases e <;> simp [handle_neutral] at he <;> rfl
    rw [List.foldl_cons, hstep]
    exact ih live (fun e' he' => hl e' (List.mem_cons_of_mem _ he'))

theorem disposed_handles_neutral (l : List Effect)
    (hl : ∀ e ∈ l, handle_neutral e = true) : disposed_handles l = [] := by
  induction l with
  | nil => rfl
  | cons e rest ih =>
    have he := hl e (List.mem_cons_self _ _)
    have hrest := ih (fun e' he' => hl e' (List.mem_cons_of_mem _ he'))
    unfold disposed_handles at hrest ⊢
    cases e <;> simp [handle_neutral] at he <;> simpa using hrest

/-- A step that appends only neutral effects and keeps the held handle keeps the
bookkeeping consistent. -/
theorem handles_ok_neutral (s s' : State) (l : List Effect)
    (htrace : s'.trace = s.trace ++ l) (hl : ∀ e ∈ l, handle_neutral e = true)
    (hg : s'.dbus_action_group = s.dbus_action_group) (hid : s.next_id ≤ s'.next_id)
    (h : handles_ok s) : handles_ok s' := by
  obtain ⟨h1, h2, h3, h4⟩ := h
  have hd : disposed_handles s'.trace = disposed_handles s.trace := by
    rw [htrace, disposed_handles_append, disposed_handles_neutral l hl, List.append_nil]
  refine ⟨?_, ?_, ?_, ?_⟩
  · rw [htrace, live_handles_append, foldl_live_step_neutral l _ hl, h1, hg]
  · rw [hd]; exact h2
  · rw [hd]; exact fun g hgm => lt_of_lt_of_le (h3 g hgm) hid
  · intro g hheld
    rw [hg] at hheld
    rw [hd]
    exact ⟨lt_of_lt_of_le (h4 g hheld).1 hid, (h4 g hheld).2⟩

theorem handles_ok_dispose (s : State) (h : handles_ok s) :
    handles_ok (dispose_action_group s) := by
  rw [dispose_action_group_eq]
  obtain ⟨h1, h2, h3, h4⟩ := h
  cases hg : s.dbus_action_group with
  | none =>
    refine ⟨?_, ?_, ?_, ?_⟩
    · simpa [hg] using h1
    · simpa using h2
    · simpa using h3
    · intro g hheld
      cases hheld
  | some g =>
    have hg4 := h4 g hg
    refine ⟨?_, ?_, ?_, ?_⟩
    · show live_handles (s.trace ++ [Effect.run_dispose g]) = _
      rw [live_handles_append, h1, hg]
      simp [live_step]
    · show (disposed_handles (s.trace ++ [Effect.run_dispose g])).Nodup
      rw [disposed_handles_append]
      simp only [disposed_handles, List.filterMap_cons, List.filterMap_nil]
      rw [List.nodup_append]
      refine ⟨h2, List.nodup_singleton g, ?_⟩
      intro a ha hb
      rw [List.mem_singleton] at hb
      subst hb
      exact hg4.2 ha
    · intro a ha
      have ha' : a ∈ disposed_handles (s.trace ++ [Effect.run_dispose g]) := ha
      rw [disposed_handles_append] at ha'
      simp only [disposed_handles, List.filterMap_cons, List.filterMap_nil, List.mem_append,
        List.mem_singleton] at ha'
      rcases ha' with ha' | ha'
      · exact h3 a ha'
      · subst ha'
        exact hg4.1
    · intro a hheld
      cases hheld

theorem handles_ok_appeared (s : State) (connection : Nat) (name : String)
    (h : handles_ok s) : handles_ok (dbus_appeared s connection name) := by
  have hd := handles_ok_dispose s h
  have hnone := dispose_action_group_handle s
  obtain ⟨h1, h2, h3, _⟩ := hd
  have hdisp : ∀ t : List Effect, ∀ g : ActionGroup,
      disposed_handles (t ++ [Effect.action_group_get g]) = disposed_handles t := by
    intro t g
    rw [disposed_handles_append]
    simp [disposed_handles]
  unfold dbus_appeared
  refine ⟨?_, ?_, ?_, ?_⟩
  · show live_handles ((dispose_action_group s).trace ++ [_]) = _
    rw [live_handles_append, h1, hnone]
    simp [live_step]
  · show (disposed_handles ((dispose_action_group s).trace ++ [_])).Nodup
    rw [hdisp]
    exact h2
  · intro g hgm
    have hgm' : g ∈ disposed_handles ((dispose_action_group s).trace ++ [_]) := hgm
    rw [hdisp] at hgm'
    exact Nat.lt_succ_of_lt (h3 g hgm')
  · intro g hheld
    have hheld' : some (ActionGroup.mk (dispose_action_group s).next_id connection name
        APP_DBUS_PATH) = some g := hheld
    cases hheld'
    refine ⟨Nat.lt_succ_self _, ?_⟩
    show _ ∉ disposed_handles ((dispose_action_group s).trace ++ [_])
    rw [hdisp]
    intro hmem
    exact lt_irrefl _ (h3 _ hmem)

theorem handles_ok_log (s : State) (e : Effect) (he : handle_neutral e = true)
    (h : handles_ok s) : handles_ok (s.log e) :=
  handles_ok_neutral s (s.log e) [e] rfl (by simpa using he) rfl (le_refl _) h

theorem handles_ok_stop_dbus_watch (s : State) (h : handles_ok s) :
    handles_ok (stop_dbus_watch s) := by
  rw [stop_dbus_watch_eq]
  refine handles_ok_neutral s _ _ rfl ?_ rfl (le_refl _) h
  cases s.bus_watch_id <;> simp [handle_neutral]

theorem handles_ok_disconnect_created_handler (s : State) (h : handles_ok s) :
    handles_ok (disconnect_created_handler s) := by
  rw [disconnect_created_handler_eq]
  refine handles_ok_neutral s _ _ rfl ?_ rfl (le_refl _) h
  cases s.created_handler_id <;> simp [handle_neutral]

theorem handles_ok_enable (s : State) (h : handles_ok s) : handles_ok (enable s) := by
  have h1 := handles_ok_log s (.addKeybinding "ddterm-toggle-hotkey") rfl h
  have h2 := handles_ok_stop_dbus_watch _ h1
  unfold enable
  refine handles_ok_neutral (disconnect_created_handler _) _ [_] rfl ?_ rfl
    (Nat.le_succ _) (handles_ok_disconnect_created_handler _ ?_)
  · simp [handle_neutral]
  · exact handles_ok_neutral _ _ [_] rfl (by simp [handle_neutral]) rfl (Nat.le_succ _) h2

theorem handles_ok_disable (env : Env) (s : State) (h : handles_ok s) :
    handles_ok (disable env s) := by
  unfold disable
  refine handles_ok_log _ (.removeKeybinding "ddterm-toggle-hotkey") rfl ?_
  apply handles_ok_disconnect_created_handler
  apply handles_ok_dispose
  apply handles_ok_stop_dbus_watch
  cases env.allowExtensions
  · exact h
  · cases hg : s.dbus_action_group with
    | none => simpa [hg] using h
    | some g => simpa [hg] using handles_ok_log s (.activate_action g "quit" none) rfl h

theorem handles_ok_initial (r : JSNumber) : handles_ok (State.initial r) := by
  refine ⟨rfl, List.nodup_nil, ?_, ?_⟩
  · intro g hg
    cases hg
  · intro g hg
    cases hg

theorem handles_ok_event (s : State) (ev : BrokerEvent) (h : handles_ok s) :
    handles_ok (ev.run s) := by
  cases ev with
  | enable => exact handles_ok_enable s h
  | appeared connection name => exact handles_ok_appeared s connection name h
  | disappeared => exact handles_ok_dispose s h
  | disable env => exact handles_ok_disable env s h

theorem handles_ok_run (evs : List BrokerEvent) (s : State) (h : handles_ok s) :
    handles_ok (run_broker evs s) := by
  induction evs generalizing s with
  | nil => exact h
  | cons ev rest ih =>
    unfold run_broker at ih ⊢
    rw [List.foldl_cons]
    exact ih _ (handles_ok_event s ev h)

theorem dbus_appeared_effects (s : State) (connection : Nat) (name : String) :
    new_effects s (dbus_appeared s connection name) =
      (match s.dbus_action_group with
        | some g => [Effect.run_dispose g]
        | none => []) ++
      [Effect.action_group_get ⟨s.next_id, connection, name, "/com/github/amezin/ddterm"⟩] := by
  apply new_effects_of_trace
  unfold dbus_appeared
  rw [dispose_action_group_eq]
  cases hg : s.dbus_action_group <;> simp [State.log, APP_DBUS_PATH]

/-- Claim C13: at every point of every sequence of `enable`, `dbus_appeared`,
`dbus_disappeared` and `disable` events run from the initial state, the handles acquired
and not yet disposed are exactly the held handle, so at most one; no handle is disposed
twice.  In any state `dbus_appeared` disposes the held handle, if any, before it acquires
and stores the new one, and `dbus_disappeared` leaves no handle held. -/
theorem at_most_one_live_handle (r : JSNumber) (evs : List BrokerEvent) :
    (∀ p, p <+: evs →
      (live_handles (run_broker p (State.initial r)).trace).length ≤ 1 ∧
      live_handles (run_broker p (State.initial r)).trace =
        (run_broker p (State.initial r)).dbus_action_group.toList) ∧
    (disposed_handles (run_broker evs (State.initial r)).trace).Nodup ∧
    (∀ (s : State) (connection : Nat) (name : String),
      new_effects s (dbus_appeared s connection name) =
        (match s.dbus_action_group with
          | some g => [Effect.run_dispose g]
          | none => []) ++
        [Effect.action_group_get
          ⟨s.next_id, connection, name, "/com/github/amezin/ddterm"⟩] ∧
      (dbus_appeared s connection name).dbus_action_group =
        some ⟨s.next_id, connection, name, "/com/github/amezin/ddterm"⟩) ∧
    ∀ s : State, (dbus_disappeared s).dbus_action_group = none := by
  refine ⟨?_, (handles_ok_run evs _ (handles_ok_initial r)).2.1, ?_, ?_⟩
  · intro p _
    have h := (handles_ok_run p _ (handles_ok_initial r)).1
    refine ⟨?_, h⟩
    rw [h]
    cases (run_broker p (State.initial r)).dbus_action_group <;> simp
  · intro s connection name
    exact ⟨dbus_appeared_effects s connection name, dbus_appeared_handle s connection name⟩
  · intro s
    exact dispose_action_group_handle s

theorem at_most_one_live_handle_witness :
    (live_handles (run_broker
      [.enable, .appeared 7 "com.github.amezin.ddterm",
        .appeared 8 "com.github.amezin.ddterm"]
      (State.initial (.finite (1 / 2)))).trace).length ≤ 1 ∧
    (disposed_handles (run_broker
      [.enable, .appeared 7 "com.github.amezin.ddterm",
        .appeared 8 "com.github.amezin.ddterm", .disable (sample_env 540), .disappeared]
      (State.initial (.finite (1 / 2)))).trace).Nodup :=
  have h := at_most_one_live_handle (.finite (1 / 2))
    [.enable, .appeared 7 "com.github.amezin.ddterm",
      .appeared 8 "com.github.amezin.ddterm", .disable (sample_env 540), .disappeared]
  ⟨(h.1 [.enable, .appeared 7 "com.github.amezin.ddterm",
      .appeared 8 "com.github.amezin.ddterm"] ⟨[.disable (sample_env 540), .disappeared],
        rfl⟩).1, h.2.1⟩

/-! ## Teardown keeps the tracked window (C14) -/

theorem handlers_of_disable (env : Env) (s : State) (win : WinId) (signal : Signal) :
    handlers_of (disable env s) win signal = handlers_of s win signal := by
  rw [disable_eq]
  rfl

theorem emit_single_track_window (env : Env) (s : State) (win : WinId) (signal : Signal)
    (hh : handlers_of s win signal = [.track_window]) :
    emit_signal env s win signal = track_window env s win := by
  simp [emit_signal, hh, call_handler]

/-- Claim C14: `disable()` leaves `current_window`, the persisted `window-height` and
every per-window connection as they were.  Hence, after `disable()`, a `size-changed`
notification on the still-current window on a monitor writes `window-height`, and an
identity change of a window connected by `handle_created` that makes it resolve adopts
it through `track_window`. -/
theorem disable_keeps_tracking (env : Env) (s : State) :
    (disable env s).current_window = s.current_window ∧
    (disable env s).window_height = s.window_height ∧
    (disable env s).connections = s.connections ∧
    (∀ (env' : Env) (win : WinId), s.current_window = some win →
      0 ≤ (env'.window win).monitor →
      handlers_of s win .size_changed = [.update_height_setting] →
      new_effects (disable env s) (emit_signal env' (disable env s) win .size_changed) =
        [Effect.set_double "window-height" (height_ratio_of env' win)] ∧
      (emit_signal env' (disable env s) win .size_changed).window_height =
        height_ratio_of env' win) ∧
    ∀ (env' : Env) (win : WinId) (change : IdentityChange), s.current_window ≠ some win →
      handlers_of s win change.signal = [.track_window] →
      (is_dropdown_terminal_window ((change.apply env' win).window win)).truthy = true →
      (identity_changed win (env', disable env s) change).2.current_window = some win ∧
      new_effects (disable env s) (identity_changed win (env', disable env s) change).2 =
        adoption_effects (change.apply env' win) s.window_height win := by
  have hcur : (disable env s).current_window = s.current_window := by rw [disable_eq]
  have hwh : (disable env s).window_height = s.window_height := by rw [disable_eq]
  have hconn : (disable env s).connections = s.connections := by rw [disable_eq]
  refine ⟨hcur, hwh, hconn, ?_, ?_⟩
  · intro env' win hc hmon hh
    rw [emit_size_changed_single env' _ win (by rw [handlers_of_disable]; exact hh),
      update_height_setting_write env' _ win (by rw [hcur]; exact hc) hmon,
      new_effects_of_trace _ _ _ rfl]
    exact ⟨rfl, rfl⟩
  · intro env' win change hc hh hres
    unfold identity_changed
    simp only
    rw [emit_single_track_window _ _ win _ (by rw [handlers_of_disable]; exact hh),
      track_window_adopt _ _ win hres (by rw [hcur]; exact hc),
      new_effects_of_trace _ _ _ rfl, hwh]
    exact ⟨rfl, rfl⟩

theorem disable_keeps_tracking_witness :
    new_effects (disable (sample_env 540) enabled_tracking)
      (emit_signal (sample_env 324) (disable (sample_env 540) enabled_tracking) 1
        .size_changed) =
      [Effect.set_double "window-height" (height_ratio_of (sample_env 324) 1)] ∧
    (identity_changed 1 (sample_env 540, disable blank_env enabled_created)
      (.gtk_application_id (some "com.github.amezin.ddterm"))).2.current_window = some 1 :=
  ⟨((disable_keeps_tracking (sample_env 540) enabled_tracking).2.2.2.1 (sample_env 324) 1
      (by decide) (by decide) (by decide)).1,
    ((disable_keeps_tracking blank_env enabled_created).2.2.2.2 (sample_env 540) 1
      (.gtk_application_id (some "com.github.amezin.ddterm")) (by decide) (by decide)
      (by decide)).1⟩

end DDTerm
